import Mathlib

/-!
# Financial app front end (`static/js/main.js`): embedding and properties

A shallow embedding of the browser-side script: the global collections become
an explicit store, the DOM nodes the script writes become fields of a record,
`alert`, `console.error` and `fetch` become logs in the application state, and
the built-ins of the language (dates, number formatting) are either modelled
after ECMA-262 or taken as parameters of a platform record.
-/

namespace FinancialApp

/-! ## JavaScript values and objects -/

/-- A JavaScript value as far as the script tells values apart: the primitives
and plain objects, whose own properties are kept in insertion order. Numbers
carried by this type are integers; amounts are not carried by it. -/
inductive JsValue where
  | undefined : JsValue
  | null : JsValue
  | boolean (b : Bool) : JsValue
  | number (n : Int) : JsValue
  | string (s : String) : JsValue
  | object (props : List (String × JsValue)) : JsValue

/-- The own properties of a plain object, in insertion order. -/
abbrev JsObject := List (String × JsValue)

namespace JsValue

/-- Strict equality `v === 'lit'` against a string literal. -/
def strictEqStr : JsValue → String → Bool
  | string s, lit => s == lit
  | _, _ => false

/-- The string a template literal `${v}` interpolates. `numberToString` is
`Number::toString` on integer-valued numbers, a built-in of the platform
(decimal digits for small magnitudes, exponent form from 1e21 on). -/
def toStr (numberToString : Int → String) : JsValue → String
  | undefined => "undefined"
  | null => "null"
  | boolean true => "true"
  | boolean false => "false"
  | number n => numberToString n
  | string s => s
  | object _ => "[object Object]"

/-- The own enumerable properties an object spread `...v` copies: those of a
plain object; `undefined`, `null`, booleans and numbers contribute none (the
index properties of a string are not modelled). -/
def ownProps : JsValue → JsObject
  | object props => props
  | _ => []

end JsValue

/-- Property read `o.k`: `undefined` when `o` has no own property `k`. -/
def getProp : JsObject → String → JsValue
  | [], _ => JsValue.undefined
  | (k', v') :: rest, k => if k' = k then v' else getProp rest k

/-- Whether `o` has an own property `k`. -/
def hasProp : JsObject → String → Bool
  | [], _ => false
  | (k', _) :: rest, k => if k' = k then true else hasProp rest k

/-- Defining property `k` with value `v` on `o` (what an object literal or a
spread does for each key): an existing key keeps its position and takes the new
value, a new key is added last. -/
def setProp : JsObject → String → JsValue → JsObject
  | [], k, v => [(k, v)]
  | (k', v') :: rest, k, v =>
    if k' = k then (k', v) :: rest else (k', v') :: setProp rest k v

/-- Object spread `{ ...target, ...source }` onto the properties already
defined: each own property of `source`, in order, is defined on the target. -/
def spread (target : JsObject) (source : JsValue) : JsObject :=
  source.ownProps.foldl (fun acc kv => setProp acc kv.1 kv.2) target

/-! ## Data model -/

/-- An account as the renderer reads it. -/
structure Account (V : Type) where
  id : Int
  name : String
  account_type : String
  current_balance : V

/-- An income or expense category. -/
structure Category where
  id : Int
  name : String

/-- A business direction. -/
structure BusinessDirection where
  id : Int
  name : String

/-- A transaction as the renderer reads it. `V` is the type of JavaScript
numbers. `transaction_date` is the time value of `new Date(t.transaction_date)`
in milliseconds since the epoch, `none` when the date is invalid (`NaN`).
Optional references are `none` when the field is absent or `null`. -/
structure Transaction (V : Type) where
  id : Int
  transaction_type : JsValue
  amount : V
  transaction_date : Option Int
  description : Option String
  from_account : Option (Account V)
  to_account : Option (Account V)
  income_category : Option Category
  expense_category : Option Category

/-- A planned transaction; `planned_date` is the time value of
`new Date(p.planned_date)`, `none` when invalid. -/
structure PlannedTransaction (V : Type) where
  id : Int
  transaction_type : JsValue
  amount : V
  planned_date : Option Int
  description : Option String

/-- The global collections of the script. -/
structure Store (V : Type) where
  accounts : List (Account V)
  incomeCategories : List Category
  expenseCategories : List Category
  businessDirections : List BusinessDirection
  transactions : List (Transaction V)
  plannedTransactions : List (PlannedTransaction V)

/-- `const API_BASE = '/api'`. -/
def API_BASE : String := "/api"

/-! ## Dates (ECMA-262, "Time Values and Time Range")

A time value is an integer number of milliseconds since the epoch; an invalid
date is `none`. -/

/-- Milliseconds in a day. -/
def msPerDay : Int := 86400000

/-- Milliseconds in an hour. -/
def msPerHour : Int := 3600000

/-- Milliseconds in a minute. -/
def msPerMinute : Int := 60000

/-- Milliseconds in a second. -/
def msPerSecond : Int := 1000

/-- Day number of a time value: `floor(t / msPerDay)`. -/
def Day (t : Int) : Int := t / msPerDay

/-- Milliseconds since the start of the day: `t modulo msPerDay`. -/
def TimeWithinDay (t : Int) : Int := t % msPerDay

/-- Number of days in year `y` of the proleptic Gregorian calendar. -/
def DaysInYear (y : Int) : Int :=
  if y % 4 ≠ 0 then 365
  else if y % 100 ≠ 0 then 366
  else if y % 400 ≠ 0 then 365
  else 366

/-- Day number of the first day of year `y`. -/
def DayFromYear (y : Int) : Int :=
  365 * (y - 1970) + (y - 1969) / 4 - (y - 1901) / 100 + (y - 1601) / 400

/-- Time value of the start of year `y`. -/
def TimeFromYear (y : Int) : Int := msPerDay * DayFromYear y

/-- The year a day number falls in: the largest `y` with `DayFromYear y ≤ d`,
found from the mean year length and corrected by at most one. -/
def yearFromDay (d : Int) : Int :=
  let y0 := 1970 + (400 * d) / 146097
  if DayFromYear (y0 + 1) ≤ d then y0 + 1
  else if DayFromYear y0 ≤ d then y0
  else y0 - 1

/-- The year of a time value: the largest `y` with `TimeFromYear y ≤ t`. -/
def YearFromTime (t : Int) : Int := yearFromDay (Day t)

/-- One in a leap year, zero otherwise. -/
def InLeapYear (t : Int) : Int :=
  if DaysInYear (YearFromTime t) = 366 then 1 else 0

/-- Day number within the year, from 0. -/
def DayWithinYear (t : Int) : Int := Day t - DayFromYear (YearFromTime t)

/-- The month, 0 for January to 11 for December, of day `d` (from 0) within a
year that has `l` leap days. -/
def monthOfDay (d l : Int) : Int :=
  if d < 31 then 0
  else if d < 59 + l then 1
  else if d < 90 + l then 2
  else if d < 120 + l then 3
  else if d < 151 + l then 4
  else if d < 181 + l then 5
  else if d < 212 + l then 6
  else if d < 243 + l then 7
  else if d < 273 + l then 8
  else if d < 304 + l then 9
  else if d < 334 + l then 10
  else 11

/-- Month number of a time value, 0 for January to 11 for December. -/
def MonthFromTime (t : Int) : Int := monthOfDay (DayWithinYear t) (InLeapYear t)

/-- Day number of the first day of month `mn` (0 to 11) within a year that has
`l` leap days. -/
def daysBeforeMonth (mn l : Int) : Int :=
  if mn = 0 then 0
  else if mn = 1 then 31
  else if mn = 2 then 59 + l
  else if mn = 3 then 90 + l
  else if mn = 4 then 120 + l
  else if mn = 5 then 151 + l
  else if mn = 6 then 181 + l
  else if mn = 7 then 212 + l
  else if mn = 8 then 243 + l
  else if mn = 9 then 273 + l
  else if mn = 10 then 304 + l
  else 334 + l

/-- Day of the month of a time value, from 1. -/
def DateFromTime (t : Int) : Int :=
  DayWithinYear t - daysBeforeMonth (MonthFromTime t) (InLeapYear t) + 1

/-- `MakeTime(hour, min, sec, ms)`. -/
def MakeTime (hour min sec ms : Int) : Int :=
  hour * msPerHour + min * msPerMinute + sec * msPerSecond + ms

/-- `MakeDay(year, month, date)`: the day number of the given calendar day;
months outside 0 to 11 carry into the year. -/
def MakeDay (year month date : Int) : Int :=
  let ym := year + month / 12
  let mn := month % 12
  let l := if DaysInYear ym = 366 then 1 else 0
  DayFromYear ym + daysBeforeMonth mn l + date - 1

/-- `MakeDate(day, time)`. -/
def MakeDate (day time : Int) : Int := day * msPerDay + time

/-- `TimeClip`: time values beyond 8.64e15 ms from the epoch are invalid. -/
def TimeClip (t : Int) : Option Int :=
  if t < -8640000000000000 ∨ 8640000000000000 < t then none else some t

/-- The built-ins of the platform the script relies on. `localTZA t isUTC` is
the offset of the local time zone in milliseconds (at UTC time `t` when `isUTC`,
at local time `t` otherwise); `parseFloat`, the comparison `v >= 0`, the
`Intl.NumberFormat` of `formatCurrency`, the locale rendering of a date and
`Number::toString` on integer-valued numbers are left abstract. -/
structure Platform (V : Type) where
  localTZA : Int → Bool → Int
  numberToString : Int → String
  parseFloat : V → V
  geZero : V → Bool
  numberFormat : V → String
  toLocaleDateString : Option Int → String

/-- `LocalTime(t)`. -/
def LocalTime {V : Type} (P : Platform V) (t : Int) : Int := t + P.localTZA t true

/-- `UTC(t)`: the time value of a local time. -/
def UTC {V : Type} (P : Platform V) (t : Int) : Int := t - P.localTZA t false

/-- `Date.prototype.getFullYear` of a valid date. -/
def getFullYear {V : Type} (P : Platform V) (t : Int) : Int :=
  YearFromTime (LocalTime P t)

/-- `Date.prototype.getMonth` of a valid date. -/
def getMonth {V : Type} (P : Platform V) (t : Int) : Int :=
  MonthFromTime (LocalTime P t)

/-- `Date.prototype.getDate` of a valid date. -/
def getDate {V : Type} (P : Platform V) (t : Int) : Int :=
  DateFromTime (LocalTime P t)

/-- The time value of `new Date(year, month, date)`: a two-digit year counts
from 1900, the fields are read as local time at 00:00:00.000. -/
def newDateYMD {V : Type} (P : Platform V) (year month date : Int) : Option Int :=
  let yr := if 0 ≤ year ∧ year ≤ 99 then 1900 + year else year
  TimeClip (UTC P (MakeDate (MakeDay yr month date) (MakeTime 0 0 0 0)))

/-- Relational `a >= b` on two dates: false when either is invalid. -/
def dateGe (a b : Option Int) : Bool :=
  match a, b with
  | some x, some y => decide (y ≤ x)
  | _, _ => false

/-- Relational `a < b` on two dates: false when either is invalid. -/
def dateLt (a b : Option Int) : Bool :=
  match a, b with
  | some x, some y => decide (x < y)
  | _, _ => false

/-! ## Utility functions -/

/-- `formatCurrency(amount)`. -/
def formatCurrency {V : Type} (P : Platform V) (amount : V) : String :=
  P.numberFormat amount

/-- `formatDate(dateString)`, on the time value of `new Date(dateString)`. -/
def formatDate {V : Type} (P : Platform V) (date : Option Int) : String :=
  P.toLocaleDateString date

/-- `getTransactionRowClass(type)`. -/
def getTransactionRowClass (type : JsValue) : String :=
  if type.strictEqStr "income" then "income-row"
  else if type.strictEqStr "expense" then "expense-row"
  else if type.strictEqStr "transfer" then "transfer-row"
  else ""

/-- `getTransactionTypeText(type)`. -/
def getTransactionTypeText (type : JsValue) : JsValue :=
  if type.strictEqStr "income" then JsValue.string "Доход"
  else if type.strictEqStr "expense" then JsValue.string "Расход"
  else if type.strictEqStr "transfer" then JsValue.string "Перевод"
  else type

/-- `getCategoryText(transaction)`. -/
def getCategoryText {V : Type} (transaction : Transaction V) : String :=
  match transaction.income_category with
  | some c => c.name
  | none =>
    match transaction.expense_category with
    | some c => c.name
    | none => "Без категории"

/-- `Array.prototype.join` with separator `sep`. -/
def joinWith (sep : String) : List String → String
  | [] => ""
  | [x] => x
  | x :: y :: rest => x ++ sep ++ joinWith sep (y :: rest)

/-- `getAccountText(transaction)`. -/
def getAccountText {V : Type} (transaction : Transaction V) : String :=
  let parts : List String := []
  let parts := match transaction.from_account with
    | some a => parts ++ ["Из: " ++ a.name]
    | none => parts
  let parts := match transaction.to_account with
    | some a => parts ++ ["В: " ++ a.name]
    | none => parts
  joinWith " | " parts

/-- The optional description paragraph of a row: present when the description
is truthy (given and not the empty string). -/
def descriptionParagraph (description : Option String) : Option String :=
  match description with
  | some d => if d = "" then none else some d
  | none => none

/-! ## Application state: store, DOM, notifications, requests -/

/-- An `option` element of a `select`. -/
structure SelectOption where
  value : String
  text : String

/-- An item of the accounts list (`#accounts-list`). -/
structure AccountItem where
  className : String
  name : String
  accountType : String
  balance : String

/-- A text-only list item with its class. -/
structure TextItem where
  className : String
  text : String

/-- A row of the full transactions list (`#transactions-list`): the class of
the `li` and the values interpolated into its template. -/
structure TransactionRow where
  className : String
  typeText : String
  amount : String
  categoryText : String
  accountText : String
  description : Option String
  date : String

/-- A row of the recent-transactions list (`#recent-transactions`). -/
structure RecentRow where
  className : String
  typeText : String
  categoryText : String
  amount : String
  date : String

/-- A row of the planned-transactions list (`#planned-list`). -/
structure PlannedRow where
  className : String
  typeText : String
  amount : String
  plannedOn : String
  description : Option String
  overdueMarker : Option String
  completeId : Int

/-- The DOM nodes the script reads and writes, by element id. -/
structure Dom where
  fromAccount : List SelectOption
  toAccount : List SelectOption
  incomeCategory : List SelectOption
  expenseCategory : List SelectOption
  businessDirection : List SelectOption
  accountsList : List AccountItem
  incomeCategoriesList : List TextItem
  expenseCategoriesList : List TextItem
  directionsList : List TextItem
  transactionsList : List TransactionRow
  recentTransactions : List RecentRow
  plannedList : List PlannedRow
  monthlyIncome : String
  monthlyExpense : String
  totalBalance : String
  transactionType : String
  fromAccountGroupDisplay : String
  toAccountGroupDisplay : String
  incomeCategoryGroupDisplay : String
  expenseCategoryGroupDisplay : String
  reportStartDate : String
  reportEndDate : String
  cashFlowReport : String
  profitLossReport : String

/-- A call of `fetch(url, init)`. -/
structure Request where
  url : String
  init : JsObject

/-- A thrown `Error`. -/
structure JsError where
  message : String

/-- What the environment answers to one `fetch`: a transport failure, or a
response with its `ok` flag, its status and the outcome of `response.json()`. -/
inductive FetchOutcome (α : Type) where
  | networkError (message : String) : FetchOutcome α
  | response (ok : Bool) (status : Nat) (json : Except String α) : FetchOutcome α

/-- The whole state of the page: the global collections, the DOM, the blocking
alerts shown so far, the console and the requests issued so far. -/
structure App (V : Type) where
  store : Store V
  dom : Dom
  alerts : List String
  console : List String
  requests : List Request

/-- `showError(message)`. -/
def showError {V : Type} (message : String) (s : App V) : App V :=
  { s with alerts := s.alerts ++ ["Ошибка: " ++ message] }

/-- `showSuccess(message)`. -/
def showSuccess {V : Type} (message : String) (s : App V) : App V :=
  { s with alerts := s.alerts ++ ["Успех: " ++ message] }

/-- `items.forEach(x => list.appendChild(render(x)))` on the children `init`. -/
def appendEach {α β : Type} (render : α → β) (items : List α) (init : List β) : List β :=
  items.foldl (fun children x => children ++ [render x]) init

/-! ## API client -/

/-- The second argument of `fetch` in `apiCall`:
`{ headers: { 'Content-Type': 'application/json', ...options.headers }, ...options }`. -/
def fetchInit (options : JsObject) : JsObject :=
  let headers := spread (setProp [] "Content-Type" (JsValue.string "application/json"))
    (getProp options "headers")
  spread (setProp [] "headers" (JsValue.object headers)) (JsValue.object options)

/-- The headers a request carries: the own properties of `init.headers`. -/
def Request.headers (r : Request) : JsObject :=
  (getProp r.init "headers").ownProps

/-- The request `apiCall(endpoint, options)` issues. -/
def apiRequest (endpoint : String) (options : JsObject) : Request :=
  { url := API_BASE ++ endpoint, init := fetchInit options }

/-- `apiCall(endpoint, options)` against the given outcome of its `fetch`: the
request is issued, a transport failure, a non-ok status and a body that is not
JSON are logged and rethrown, an ok response yields its parsed body. -/
def apiCall {V α : Type} (endpoint : String) (options : JsObject)
    (outcome : FetchOutcome α) (s : App V) : Except JsError α × App V :=
  let s := { s with requests := s.requests ++ [apiRequest endpoint options] }
  let result : Except JsError α :=
    match outcome with
    | FetchOutcome.networkError m => Except.error ⟨m⟩
    | FetchOutcome.response ok status json =>
      if !ok then Except.error ⟨"HTTP error! status: " ++ toString status⟩
      else match json with
        | Except.ok v => Except.ok v
        | Except.error m => Except.error ⟨m⟩
  match result with
  | Except.ok v => (Except.ok v, s)
  | Except.error e =>
    (Except.error e, { s with console := s.console ++ ["API call failed: " ++ e.message] })

/-- `try { body } catch (error) { handler(error) }` over the page state. -/
def tryCatch {V : Type} (body : App V → Except JsError Unit × App V)
    (handler : JsError → App V → Except JsError Unit × App V) (s : App V) :
    Except JsError Unit × App V :=
  match body s with
  | (Except.ok u, s1) => (Except.ok u, s1)
  | (Except.error e, s1) => handler e s1

/-! ## View updates -/

/-- The options of one account select after `updateAccountSelects`. -/
def accountOptions {V : Type} (P : Platform V) (accounts : List (Account V)) :
    List SelectOption :=
  appendEach
    (fun account => { value := toString account.id,
                      text := account.name ++ " (" ++ formatCurrency P account.current_balance ++ ")" })
    accounts [{ value := "", text := "Выберите счет" }]

/-- `updateAccountSelects()`. -/
def updateAccountSelects {V : Type} (P : Platform V) (s : App V) : App V :=
  let s := { s with dom := { s.dom with fromAccount := accountOptions P s.store.accounts } }
  { s with dom := { s.dom with toAccount := accountOptions P s.store.accounts } }

/-- `updateIncomeCategorySelect()`. -/
def updateIncomeCategorySelect {V : Type} (s : App V) : App V :=
  let children :=
    appendEach (fun category => { value := toString category.id, text := category.name })
      s.store.incomeCategories [{ value := "", text := "Выберите категорию" }]
  { s with dom := { s.dom with incomeCategory := children } }

/-- `updateExpenseCategorySelect()`. -/
def updateExpenseCategorySelect {V : Type} (s : App V) : App V :=
  let children :=
    appendEach (fun category => { value := toString category.id, text := category.name })
      s.store.expenseCategories [{ value := "", text := "Выберите категорию" }]
  { s with dom := { s.dom with expenseCategory := children } }

/-- `updateBusinessDirectionSelect()`. -/
def updateBusinessDirectionSelect {V : Type} (s : App V) : App V :=
  let children :=
    appendEach (fun direction => { value := toString direction.id, text := direction.name })
      s.store.businessDirections [{ value := "", text := "Выберите направление" }]
  { s with dom := { s.dom with businessDirection := children } }

/-- `updateAccountsList()`. -/
def updateAccountsList {V : Type} (P : Platform V) (s : App V) : App V :=
  let children :=
    appendEach
      (fun account => { className := "flex justify-between items-center p-2 bg-gray-50 rounded",
                        name := account.name, accountType := account.account_type,
                        balance := formatCurrency P account.current_balance })
      s.store.accounts []
  { s with dom := { s.dom with accountsList := children } }

/-- `updateIncomeCategoriesList()`. -/
def updateIncomeCategoriesList {V : Type} (s : App V) : App V :=
  let children :=
    appendEach (fun category => { className := "p-2 bg-gray-50 rounded", text := category.name })
      s.store.incomeCategories []
  { s with dom := { s.dom with incomeCategoriesList := children } }

/-- `updateExpenseCategoriesList()`. -/
def updateExpenseCategoriesList {V : Type} (s : App V) : App V :=
  let children :=
    appendEach (fun category => { className := "p-2 bg-gray-50 rounded", text := category.name })
      s.store.expenseCategories []
  { s with dom := { s.dom with expenseCategoriesList := children } }

/-- `updateBusinessDirectionsList()`. -/
def updateBusinessDirectionsList {V : Type} (s : App V) : App V :=
  let children :=
    appendEach (fun direction => { className := "p-2 bg-gray-50 rounded", text := direction.name })
      s.store.businessDirections []
  { s with dom := { s.dom with directionsList := children } }

/-- The `li` that `updateTransactionsList` builds for one transaction. -/
def transactionRow {V : Type} (P : Platform V) (transaction : Transaction V) : TransactionRow :=
  { className := "px-4 py-4 " ++ getTransactionRowClass transaction.transaction_type,
    typeText := (getTransactionTypeText transaction.transaction_type).toStr P.numberToString,
    amount := formatCurrency P transaction.amount,
    categoryText := getCategoryText transaction,
    accountText := getAccountText transaction,
    description := descriptionParagraph transaction.description,
    date := formatDate P transaction.transaction_date }

/-- `updateTransactionsList()`. -/
def updateTransactionsList {V : Type} (P : Platform V) (s : App V) : App V :=
  let children :=
    appendEach (transactionRow P) s.store.transactions []
  { s with dom := { s.dom with transactionsList := children } }

/-- The `li` that `updateRecentTransactions` builds for one transaction. -/
def recentRow {V : Type} (P : Platform V) (transaction : Transaction V) : RecentRow :=
  { className := "px-4 py-4 " ++ getTransactionRowClass transaction.transaction_type,
    typeText := (getTransactionTypeText transaction.transaction_type).toStr P.numberToString,
    categoryText := getCategoryText transaction,
    amount := formatCurrency P transaction.amount,
    date := formatDate P transaction.transaction_date }

/-- `transactions.slice(0, 5)`. -/
def recentTransactions {V : Type} (transactions : List (Transaction V)) :
    List (Transaction V) :=
  (transactions.drop 0).take (5 - 0)

/-- `updateRecentTransactions()`. -/
def updateRecentTransactions {V : Type} (P : Platform V) (s : App V) : App V :=
  let children :=
    appendEach (recentRow P) (recentTransactions s.store.transactions) []
  { s with dom := { s.dom with recentTransactions := children } }

/-- `isOverdue` in `updatePlannedTransactionsList`:
`new Date(planned.planned_date) < new Date()`. -/
def isOverdue {V : Type} (now : Int) (planned : PlannedTransaction V) : Bool :=
  dateLt planned.planned_date (some now)

/-- The `li` that `updatePlannedTransactionsList` builds for one entry. -/
def plannedRow {V : Type} (P : Platform V) (now : Int) (planned : PlannedTransaction V) :
    PlannedRow :=
  { className := "px-4 py-4 " ++
      (if isOverdue now planned then "bg-red-50 border-l-4 border-red-400" else "bg-gray-50"),
    typeText := (getTransactionTypeText planned.transaction_type).toStr P.numberToString,
    amount := formatCurrency P planned.amount,
    plannedOn := "Запланировано на: " ++ formatDate P planned.planned_date,
    description := descriptionParagraph planned.description,
    overdueMarker := if isOverdue now planned then some "Просрочено" else none,
    completeId := planned.id }

/-- `updatePlannedTransactionsList()`. The callback reads `new Date()` once for
each entry: `clock i` is the time read while entry `i` (from 0) is rendered. -/
def updatePlannedTransactionsList {V : Type} (P : Platform V) (clock : Nat → Int)
    (s : App V) : App V :=
  let children :=
    appendEach (fun entry => plannedRow P (clock entry.1) entry.2)
      s.store.plannedTransactions.enum []
  { s with dom := { s.dom with plannedList := children } }

/-! ## Dashboard statistics -/

/-- `startOfMonth` in `updateDashboardStats`:
`new Date(now.getFullYear(), now.getMonth(), 1)`. -/
def startOfMonth {V : Type} (P : Platform V) (now : Int) : Option Int :=
  newDateYMD P (getFullYear P now) (getMonth P now) 1

/-- `monthlyTransactions` in `updateDashboardStats`: the transactions with
`new Date(t.transaction_date) >= startOfMonth`. -/
def monthlyTransactions {V : Type} (P : Platform V) (now : Int)
    (transactions : List (Transaction V)) : List (Transaction V) :=
  transactions.filter (fun t => dateGe t.transaction_date (startOfMonth P now))

/-- The list `monthlyIncome` is reduced over:
`monthlyTransactions.filter(t => t.transaction_type === 'income')`. -/
def incomeTransactions {V : Type} (P : Platform V) (now : Int)
    (transactions : List (Transaction V)) : List (Transaction V) :=
  (monthlyTransactions P now transactions).filter
    (fun t => t.transaction_type.strictEqStr "income")

/-- The list `monthlyExpense` is reduced over:
`monthlyTransactions.filter(t => t.transaction_type === 'expense')`. -/
def expenseTransactions {V : Type} (P : Platform V) (now : Int)
    (transactions : List (Transaction V)) : List (Transaction V) :=
  (monthlyTransactions P now transactions).filter
    (fun t => t.transaction_type.strictEqStr "expense")

/-- `monthlyIncome` in `updateDashboardStats`. -/
def monthlyIncome {V : Type} [Add V] [Zero V] (P : Platform V) (now : Int)
    (transactions : List (Transaction V)) : V :=
  (incomeTransactions P now transactions).foldl (fun sum t => sum + P.parseFloat t.amount) 0

/-- `monthlyExpense` in `updateDashboardStats`. -/
def monthlyExpense {V : Type} [Add V] [Zero V] (P : Platform V) (now : Int)
    (transactions : List (Transaction V)) : V :=
  (expenseTransactions P now transactions).foldl (fun sum t => sum + P.parseFloat t.amount) 0

/-- `totalBalance` in `updateDashboardStats`. -/
def totalBalance {V : Type} [Add V] [Zero V] (P : Platform V) (accounts : List (Account V)) : V :=
  accounts.foldl (fun sum acc => sum + P.parseFloat acc.current_balance) 0

/-- `updateDashboardStats()`, evaluated at time `now`. -/
def updateDashboardStats {V : Type} [Add V] [Zero V] (P : Platform V) (now : Int)
    (s : App V) : App V :=
  let income := monthlyIncome P now s.store.transactions
  let expense := monthlyExpense P now s.store.transactions
  let balance := totalBalance P s.store.accounts
  let s := { s with dom := { s.dom with monthlyIncome := formatCurrency P income } }
  let s := { s with dom := { s.dom with monthlyExpense := formatCurrency P expense } }
  { s with dom := { s.dom with totalBalance := formatCurrency P balance } }

/-! ## Transaction form -/

/-- `updateTransactionFormFields()`. -/
def updateTransactionFormFields {V : Type} (s : App V) : App V :=
  let type := s.dom.transactionType
  let s := { s with dom := { s.dom with fromAccountGroupDisplay :=
    if type = "expense" ∨ type = "transfer" then "block" else "none" } }
  let s := { s with dom := { s.dom with toAccountGroupDisplay :=
    if type = "income" ∨ type = "transfer" then "block" else "none" } }
  let s := { s with dom := { s.dom with incomeCategoryGroupDisplay :=
    if type = "income" then "block" else "none" } }
  { s with dom := { s.dom with expenseCategoryGroupDisplay :=
    if type = "expense" then "block" else "none" } }

/-! ## Loaders -/

/-- `loadAccounts()`, given the outcome of its request. -/
def loadAccounts {V : Type} (P : Platform V) (outcome : FetchOutcome (List (Account V)))
    (s : App V) : Except JsError Unit × App V :=
  tryCatch
    (fun s =>
      match apiCall "/accounts" [] outcome s with
      | (Except.error e, s) => (Except.error e, s)
      | (Except.ok result, s) =>
        let s := { s with store := { s.store with accounts := result } }
        let s := updateAccountSelects P s
        (Except.ok (), updateAccountsList P s))
    (fun _ s => (Except.ok (), showError "Не удалось загрузить счета" s))
    s

/-- `loadIncomeCategories()`, given the outcome of its request. -/
def loadIncomeCategories {V : Type} (outcome : FetchOutcome (List Category))
    (s : App V) : Except JsError Unit × App V :=
  tryCatch
    (fun s =>
      match apiCall "/income-categories" [] outcome s with
      | (Except.error e, s) => (Except.error e, s)
      | (Except.ok result, s) =>
        let s := { s with store := { s.store with incomeCategories := result } }
        let s := updateIncomeCategorySelect s
        (Except.ok (), updateIncomeCategoriesList s))
    (fun _ s => (Except.ok (), showError "Не удалось загрузить категории доходов" s))
    s

/-- `loadExpenseCategories()`, given the outcome of its request. -/
def loadExpenseCategories {V : Type} (outcome : FetchOutcome (List Category))
    (s : App V) : Except JsError Unit × App V :=
  tryCatch
    (fun s =>
      match apiCall "/expense-categories" [] outcome s with
      | (Except.error e, s) => (Except.error e, s)
      | (Except.ok result, s) =>
        let s := { s with store := { s.store with expenseCategories := result } }
        let s := updateExpenseCategorySelect s
        (Except.ok (), updateExpenseCategoriesList s))
    (fun _ s => (Except.ok (), showError "Не удалось загрузить категории расходов" s))
    s

/-- `loadBusinessDirections()`, given the outcome of its request. -/
def loadBusinessDirections {V : Type} (outcome : FetchOutcome (List BusinessDirection))
    (s : App V) : Except JsError Unit × App V :=
  tryCatch
    (fun s =>
      match apiCall "/business-directions" [] outcome s with
      | (Except.error e, s) => (Except.error e, s)
      | (Except.ok result, s) =>
        let s := { s with store := { s.store with businessDirections := result } }
        let s := updateBusinessDirectionSelect s
        (Except.ok (), updateBusinessDirectionsList s))
    (fun _ s => (Except.ok (), showError "Не удалось загрузить направления деятельности" s))
    s

/-- `loadTransactions()`, given the outcome of its request and the time `now`
at which the dashboard is recomputed. -/
def loadTransactions {V : Type} [Add V] [Zero V] (P : Platform V) (now : Int)
    (outcome : FetchOutcome (List (Transaction V))) (s : App V) :
    Except JsError Unit × App V :=
  tryCatch
    (fun s =>
      match apiCall "/transactions" [] outcome s with
      | (Except.error e, s) => (Except.error e, s)
      | (Except.ok result, s) =>
        let s := { s with store := { s.store with transactions := result } }
        let s := updateTransactionsList P s
        let s := updateRecentTransactions P s
        (Except.ok (), updateDashboardStats P now s))
    (fun _ s => (Except.ok (), showError "Не удалось загрузить операции" s))
    s

/-- `loadPlannedTransactions()`, given the outcome of its request and the
times `clock` read while the list is rendered. -/
def loadPlannedTransactions {V : Type} (P : Platform V) (clock : Nat → Int)
    (outcome : FetchOutcome (List (PlannedTransaction V))) (s : App V) :
    Except JsError Unit × App V :=
  tryCatch
    (fun s =>
      match apiCall "/planned-transactions" [] outcome s with
      | (Except.error e, s) => (Except.error e, s)
      | (Except.ok result, s) =>
        let s := { s with store := { s.store with plannedTransactions := result } }
        (Except.ok (), updatePlannedTransactionsList P clock s))
    (fun _ s => (Except.ok (), showError "Не удалось загрузить плановые операции" s))
    s

/-! ## Reports -/

/-- The body of `GET /reports/cash-flow`. -/
structure CashFlowData (V : Type) where
  total_income : V
  total_expense : V
  net_flow : V

/-- One line of a breakdown by category. -/
structure CategoryAmount (V : Type) where
  category : String
  amount : V

/-- The body of `GET /reports/profit-loss`. -/
structure ProfitLossData (V : Type) where
  income_by_category : List (CategoryAmount V)
  expense_by_category : List (CategoryAmount V)

/-- The markup written to `#cash-flow-report`. -/
def cashFlowHtml {V : Type} (P : Platform V) (data : CashFlowData V) : String :=
  "\n" ++
  "            <div class=\"grid grid-cols-3 gap-4\">\n" ++
  "                <div class=\"text-center\">\n" ++
  "                    <p class=\"text-sm text-gray-500\">Доходы</p>\n" ++
  "                    <p class=\"text-lg font-bold text-green-600\">" ++
  formatCurrency P data.total_income ++
  "</p>\n" ++
  "                </div>\n" ++
  "                <div class=\"text-center\">\n" ++
  "                    <p class=\"text-sm text-gray-500\">Расходы</p>\n" ++
  "                    <p class=\"text-lg font-bold text-red-600\">" ++
  formatCurrency P data.total_expense ++
  "</p>\n" ++
  "                </div>\n" ++
  "                <div class=\"text-center\">\n" ++
  "                    <p class=\"text-sm text-gray-500\">Чистый поток</p>\n" ++
  "                    <p class=\"text-lg font-bold " ++
  (if P.geZero data.net_flow then "text-green-600" else "text-red-600") ++
  "\">\n" ++
  "                        " ++
  formatCurrency P data.net_flow ++
  "\n" ++
  "                    </p>\n" ++
  "                </div>\n" ++
  "            </div>\n" ++
  "        "

/-- The `li` appended to `profitLossHtml` for each line of a breakdown. -/
def profitLossItems {V : Type} (P : Platform V) (items : List (CategoryAmount V))
    (html : String) : String :=
  items.foldl
    (fun html item => html ++ "<li class=\"flex justify-between\"><span>" ++ item.category ++
      "</span><span>" ++ formatCurrency P item.amount ++ "</span></li>")
    html

/-- The markup written to `#profit-loss-report`. -/
def profitLossHtml {V : Type} (P : Platform V) (data : ProfitLossData V) : String :=
  let html := "<div class=\"space-y-4\">"
  let html :=
    if data.income_by_category.length > 0 then
      let html := html ++ "<div><h4 class=\"font-medium text-green-600 mb-2\">Доходы по категориям:</h4><ul class=\"space-y-1\">"
      let html := profitLossItems P data.income_by_category html
      html ++ "</ul></div>"
    else html
  let html :=
    if data.expense_by_category.length > 0 then
      let html := html ++ "<div><h4 class=\"font-medium text-red-600 mb-2\">Расходы по категориям:</h4><ul class=\"space-y-1\">"
      let html := profitLossItems P data.expense_by_category html
      html ++ "</ul></div>"
    else html
  html ++ "</div>"

/-- `generateReports()`, given the outcomes of its two requests (each is used
only if its request is issued). -/
def generateReports {V : Type} (P : Platform V)
    (cashFlow : FetchOutcome (CashFlowData V)) (profitLoss : FetchOutcome (ProfitLossData V))
    (s : App V) : Except JsError Unit × App V :=
  let startDate := s.dom.reportStartDate
  let endDate := s.dom.reportEndDate
  if startDate = "" ∨ endDate = "" then
    (Except.ok (), showError "Выберите период для отчета" s)
  else
    tryCatch
      (fun s =>
        match apiCall ("/reports/cash-flow?start_date=" ++ startDate ++ "&end_date=" ++ endDate)
            [] cashFlow s with
        | (Except.error e, s) => (Except.error e, s)
        | (Except.ok cashFlowData, s) =>
          let s := { s with dom := { s.dom with cashFlowReport := cashFlowHtml P cashFlowData } }
          match apiCall ("/reports/profit-loss?start_date=" ++ startDate ++ "&end_date=" ++ endDate)
              [] profitLoss s with
          | (Except.error e, s) => (Except.error e, s)
          | (Except.ok profitLossData, s) =>
            (Except.ok (),
              { s with dom := { s.dom with profitLossReport := profitLossHtml P profitLossData } }))
      (fun _ s => (Except.ok (), showError "Не удалось сгенерировать отчеты" s))
      s

/-! ## Notions of the specification -/

/-- The out-of-range entries: the transactions the current-month filter of
`updateDashboardStats` excludes. -/
def outOfRangeTransactions {V : Type} (P : Platform V) (now : Int)
    (transactions : List (Transaction V)) : List (Transaction V) :=
  transactions.filter (fun t => !dateGe t.transaction_date (startOfMonth P now))

/-- The in-month entries whose type is neither `'income'` nor `'expense'`
(transfers and any other value). -/
def otherMonthlyTransactions {V : Type} (P : Platform V) (now : Int)
    (transactions : List (Transaction V)) : List (Transaction V) :=
  (monthlyTransactions P now transactions).filter
    (fun t => !t.transaction_type.strictEqStr "income" &&
      !t.transaction_type.strictEqStr "expense")

/-- The sum of `amount` over a list of transactions, accumulated from 0 in list
order with the addition of `V`. -/
def sumOfAmounts {V : Type} [Add V] [Zero V] (P : Platform V) :
    List (Transaction V) → V → V
  | [], acc => acc
  | t :: rest, acc => sumOfAmounts P rest (acc + P.parseFloat t.amount)

/-- The sum of `current_balance` over a list of accounts, accumulated from 0 in
list order with the addition of `V`. -/
def sumOfBalances {V : Type} [Add V] [Zero V] (P : Platform V) :
    List (Account V) → V → V
  | [], acc => acc
  | a :: rest, acc => sumOfBalances P rest (acc + P.parseFloat a.current_balance)

/-- The overdue treatment of a row of the planned list: the overdue row style
and the overdue marker text. -/
def HasOverdueTreatment (row : PlannedRow) : Prop :=
  row.className = "px-4 py-4 bg-red-50 border-l-4 border-red-400" ∧
    row.overdueMarker = some "Просрочено"

/-- A row of the planned list rendered without the overdue treatment: the plain
row style and no marker. -/
def HasPlainTreatment (row : PlannedRow) : Prop :=
  row.className = "px-4 py-4 bg-gray-50" ∧ row.overdueMarker = none

/-- The local time value `L` reads as local midnight of the first calendar day
of the current month: its calendar fields are the local year and month of
`now`, day 1 and time 00:00:00.000. The instant of a local time value is its
`UTC`. -/
def IsLocalMidnightOfFirstDay {V : Type} (P : Platform V) (now L : Int) : Prop :=
  YearFromTime L = getFullYear P now ∧ MonthFromTime L = getMonth P now ∧
    DateFromTime L = 1 ∧ TimeWithinDay L = 0

/-- Whether a transaction passes the current-month filter and has the given
`transaction_type`. -/
def inMonthOfType {V : Type} (P : Platform V) (now : Int) (type : String)
    (t : Transaction V) : Bool :=
  dateGe t.transaction_date (startOfMonth P now) && t.transaction_type.strictEqStr type

/-- A failed load, as observed from outside: the loader completed normally,
the store and the DOM are as before, and the error notification with the
given message was shown after the earlier ones. -/
def FailedQuietly {V : Type} (message : String) (s : App V)
    (r : Except JsError Unit × App V) : Prop :=
  r.1 = Except.ok () ∧ r.2.store = s.store ∧ r.2.dom = s.dom ∧
    r.2.alerts = s.alerts ++ ["Ошибка: " ++ message]

/-! ## Sample data -/

/-- A platform over integer amounts in the zone UTC+3, with decimal rendering
of amounts and of time values. -/
def samplePlatform : Platform Int where
  localTZA := fun _ _ => 10800000
  numberToString := fun n => toString n
  parseFloat := fun v => v
  geZero := fun v => decide (0 ≤ v)
  numberFormat := fun v => toString v ++ " ₽"
  toLocaleDateString := fun d =>
    match d with
    | some t => toString t
    | none => "Invalid Date"

/-- The instant 2024-03-15T12:00:00Z. -/
def sampleNow : Int := 1710504000000

/-- A transaction of the given type, amount and date without references. -/
def sampleTransaction (id : Int) (type : String) (amount : Int) (date : Option Int) :
    Transaction Int :=
  { id := id, transaction_type := JsValue.string type, amount := amount,
    transaction_date := date, description := none, from_account := none,
    to_account := none, income_category := none, expense_category := none }

/-- A transfer dated 2024-03-10T00:00:00Z. -/
def sampleTransfer : Transaction Int := sampleTransaction 1 "transfer" 250 (some 1710028800000)

/-- A transaction whose `transaction_date` does not parse. -/
def sampleUndated : Transaction Int := sampleTransaction 2 "income" 100 none

/-- An income dated 2024-03-05T00:00:00Z. -/
def sampleIncome : Transaction Int := sampleTransaction 3 "income" 1000 (some 1709596800000)

/-- An expense dated 2024-02-20T00:00:00Z, before the sample month. -/
def sampleOldExpense : Transaction Int := sampleTransaction 4 "expense" 40 (some 1708387200000)

/-- An empty page. -/
def sampleDom : Dom :=
  { fromAccount := [], toAccount := [], incomeCategory := [], expenseCategory := [],
    businessDirection := [], accountsList := [], incomeCategoriesList := [],
    expenseCategoriesList := [], directionsList := [], transactionsList := [],
    recentTransactions := [], plannedList := [], monthlyIncome := "", monthlyExpense := "",
    totalBalance := "", transactionType := "income", fromAccountGroupDisplay := "",
    toAccountGroupDisplay := "", incomeCategoryGroupDisplay := "",
    expenseCategoryGroupDisplay := "", reportStartDate := "", reportEndDate := "2024-03-31",
    cashFlowReport := "", profitLossReport := "" }

/-- A page state with the given transactions and nothing else. -/
def sampleApp (transactions : List (Transaction Int)) : App Int :=
  { store := { accounts := [], incomeCategories := [], expenseCategories := [],
               businessDirections := [], transactions := transactions,
               plannedTransactions := [] },
    dom := sampleDom, alerts := [], console := [], requests := [] }

/-- Caller options that supply one header and no `Content-Type`. -/
def sampleOptions : JsObject :=
  [("method", JsValue.string "POST"),
   ("headers", JsValue.object [("Authorization", JsValue.string "Bearer t")])]

/-- A response with status 500. -/
def sampleFailure (α : Type) : FetchOutcome α := FetchOutcome.response false 500 (Except.error "")

/-- The sample page with the given values in the two report date fields. -/
def sampleReportApp (startDate endDate : String) : App Int :=
  { sampleApp [] with dom := { sampleDom with reportStartDate := startDate,
                                              reportEndDate := endDate } }

/-- The sample page with the given value selected in the type field. -/
def sampleFormApp (type : String) : App Int :=
  { sampleApp [] with dom := { sampleDom with transactionType := type } }

/-- The transaction `{ transaction_type: 'income', income_category: { name: 'Salary' } }`. -/
def sampleSalary : Transaction Int :=
  { sampleTransaction 5 "income" 1000 (some 1709596800000) with
    income_category := some { id := 1, name := "Salary" } }

/-- The accounts `[{ id: 1, current_balance: 1000 }, { id: 2, current_balance: 500 }]`. -/
def sampleAccounts : List (Account Int) :=
  [{ id := 1, name := "Card", account_type := "bank", current_balance := 1000 },
   { id := 2, name := "Cash", account_type := "cash", current_balance := 500 }]

/-- A page state with the sample accounts and one transaction. -/
def sampleAccountsApp : App Int :=
  { sampleApp [sampleIncome] with
    store := { (sampleApp [sampleIncome]).store with accounts := sampleAccounts } }

/-- A planned expense with the given id and planned date. -/
def samplePlanned (id : Int) (date : Option Int) : PlannedTransaction Int :=
  { id := id, transaction_type := JsValue.string "expense", amount := 300,
    planned_date := date, description := none }

/-- A page state with four planned transactions: one planned for
2024-03-10T00:00:00Z, one for the instant `sampleNow`, one for a millisecond
after it and one whose date does not parse. -/
def samplePlannedApp : App Int :=
  { sampleApp [] with
    store := { (sampleApp []).store with
      plannedTransactions :=
        [samplePlanned 1 (some 1710028800000), samplePlanned 2 (some 1710504000000),
         samplePlanned 3 (some 1710504000001), samplePlanned 4 none] } }

/-- A platform in a zone with a clock change: UTC-5 until 2024-03-10T07:00:00Z
and UTC-4 from then on (New York in March 2024); a local time the change skips
is read with the offset before it. -/
def sampleDstPlatform : Platform Int where
  localTZA := fun t isUTC =>
    if isUTC then (if t < 1710054000000 then -18000000 else -14400000)
    else (if t < 1710039600000 then -18000000 else -14400000)
  numberToString := fun n => toString n
  parseFloat := fun v => v
  geZero := fun v => decide (0 ≤ v)
  numberFormat := fun v => toString v ++ " $"
  toLocaleDateString := fun d =>
    match d with
    | some t => toString t
    | none => "Invalid Date"

/-- The instant 0050-06-15T00:00:00Z, in a two-digit year. -/
def sampleYear50Now : Int := -60575040000000

/-- An income dated 1000-01-01T00:00:00Z. -/
def sampleYear1000 : Transaction Int := sampleTransaction 6 "income" 10 (some (-30610224000000))

/-- The earliest instant a `Date` holds, 20 April of the year -271821. -/
def sampleEarliestNow : Int := -8640000000000000

/-- An income dated at the earliest instant a `Date` holds. -/
def sampleAtEarliest : Transaction Int :=
  sampleTransaction 7 "income" 10 (some (-8640000000000000))

/-! ## Lemmas -/

theorem appendEach_eq {α β : Type} (render : α → β) (items : List α) (init : List β) :
    appendEach render items init = init ++ items.map render := by
  unfold appendEach
  induction items generalizing init with
  | nil => simp
  | cons x xs ih => simp [List.foldl_cons, ih]

theorem sumOfAmounts_eq_foldl {V : Type} [Add V] [Zero V] (P : Platform V)
    (l : List (Transaction V)) (acc : V) :
    sumOfAmounts P l acc = l.foldl (fun sum t => sum + P.parseFloat t.amount) acc := by
  induction l generalizing acc with
  | nil => rfl
  | cons t rest ih => simp [sumOfAmounts, ih]

theorem strictEqStr_eq_true (v : JsValue) (lit : String) :
    v.strictEqStr lit = true ↔ v = JsValue.string lit := by
  cases v <;> simp [JsValue.strictEqStr]

theorem strictEqStr_of_ne (v : JsValue) (a b : String) (hab : a ≠ b)
    (h : v.strictEqStr a = true) : v.strictEqStr b = false := by
  rw [strictEqStr_eq_true] at h
  subst h
  simpa [JsValue.strictEqStr] using hab

theorem startOfMonth_sample : startOfMonth samplePlatform sampleNow = some 1709240400000 := by
  decide

theorem filter_type_split {V : Type} (l : List (Transaction V)) :
    (l.filter (fun t => t.transaction_type.strictEqStr "income") ++
      (l.filter (fun t => t.transaction_type.strictEqStr "expense") ++
        l.filter (fun t => !t.transaction_type.strictEqStr "income" &&
          !t.transaction_type.strictEqStr "expense"))).Perm l := by
  induction l with
  | nil => simp
  | cons t rest ih =>
    by_cases hi : t.transaction_type.strictEqStr "income" = true
    · have he := strictEqStr_of_ne _ "income" "expense" (by decide) hi
      simpa [List.filter_cons, hi, he] using ih
    · by_cases he : t.transaction_type.strictEqStr "expense" = true
      · have hi' := strictEqStr_of_ne _ "expense" "income" (by decide) he
        simp only [List.filter_cons, hi', he, Bool.not_true, Bool.not_false, Bool.and_false,
          Bool.false_eq_true, if_false, if_true]
        exact (List.perm_middle.trans (List.Perm.cons t ih))
      · simp only [Bool.not_eq_true] at hi he
        simp only [List.filter_cons, hi, he, Bool.not_false, Bool.and_self,
          Bool.false_eq_true, if_false, if_true]
        refine List.Perm.trans ?_ (List.Perm.cons t ih)
        rw [← List.append_assoc]
        exact List.perm_middle.trans (by rw [List.append_assoc])

theorem getProp_setProp (o : JsObject) (k : String) (v : JsValue) (k' : String) :
    getProp (setProp o k v) k' = if k = k' then v else getProp o k' := by
  induction o with
  | nil => simp [setProp, getProp]
  | cons kv rest ih =>
    obtain ⟨k0, v0⟩ := kv
    by_cases h0 : k0 = k
    · subst h0
      by_cases h1 : k0 = k' <;> simp [setProp, getProp, h1]
    · by_cases h1 : k0 = k'
      · subst h1
        simp [setProp, getProp, h0, Ne.symm h0]
      · simp [setProp, getProp, h0, h1, ih]

theorem getProp_foldl_setProp_of_not_mem (props acc : JsObject) (k : String)
    (h : ∀ kv ∈ props, kv.1 ≠ k) :
    getProp (props.foldl (fun acc kv => setProp acc kv.1 kv.2) acc) k = getProp acc k := by
  induction props generalizing acc with
  | nil => rfl
  | cons kv rest ih =>
    rw [List.foldl_cons, ih _ (fun kv' hkv => h kv' (List.mem_cons_of_mem _ hkv)),
      getProp_setProp, if_neg (h kv (List.mem_cons_self _ _))]

theorem getProp_foldl_setProp_of_nodup (props acc : JsObject) (k : String)
    (hn : (props.map Prod.fst).Nodup) (hh : hasProp props k = true) :
    getProp (props.foldl (fun acc kv => setProp acc kv.1 kv.2) acc) k = getProp props k := by
  induction props generalizing acc with
  | nil => simp [hasProp] at hh
  | cons kv rest ih =>
    obtain ⟨k0, v0⟩ := kv
    rw [List.map_cons, List.nodup_cons] at hn
    by_cases h0 : k0 = k
    · subst h0
      have hnot : ∀ kv ∈ rest, kv.1 ≠ k0 := by
        intro kv hkv he
        exact hn.1 (List.mem_map.mpr ⟨kv, hkv, he⟩)
      rw [List.foldl_cons, getProp_foldl_setProp_of_not_mem _ _ _ hnot, getProp_setProp]
      simp [getProp]
    · have hh' : hasProp rest k = true := by simpa [hasProp, h0] using hh
      rw [List.foldl_cons, ih _ hn.2 hh']
      simp [getProp, h0]

/-- Whenever well-formed caller options (no key twice) have a `headers`
property, the `headers` of the request are that property itself: the object
merged with the default `Content-Type` is replaced. -/
theorem fetchInit_headers_of_caller (endpoint : String) (options : JsObject)
    (hn : (options.map Prod.fst).Nodup) (hh : hasProp options "headers" = true) :
    (apiRequest endpoint options).headers = (getProp options "headers").ownProps := by
  unfold apiRequest Request.headers fetchInit spread
  simp only [JsValue.ownProps]
  rw [getProp_foldl_setProp_of_nodup _ _ _ hn hh]

theorem apiCall_error_state {V α : Type} (endpoint : String) (options : JsObject)
    (outcome : FetchOutcome α) (s : App V) (e : JsError)
    (h : (apiCall endpoint options outcome s).1 = Except.error e) :
    (apiCall endpoint options outcome s).2.store = s.store ∧
    (apiCall endpoint options outcome s).2.dom = s.dom ∧
    (apiCall endpoint options outcome s).2.alerts = s.alerts := by
  unfold apiCall at h ⊢
  cases outcome with
  | networkError m => exact ⟨rfl, rfl, rfl⟩
  | response ok status json =>
    cases ok with
    | false => exact ⟨rfl, rfl, rfl⟩
    | true =>
      cases json with
      | error m => exact ⟨rfl, rfl, rfl⟩
      | ok v => simp at h

theorem apiCall_requests {V α : Type} (endpoint : String) (options : JsObject)
    (outcome : FetchOutcome α) (s : App V) :
    (apiCall endpoint options outcome s).2.requests =
      s.requests ++ [apiRequest endpoint options] := by
  unfold apiCall
  cases outcome with
  | networkError m => rfl
  | response ok status json =>
    cases ok with
    | false => rfl
    | true =>
      cases json with
      | error m => rfl
      | ok v => rfl

theorem dayFromYear_succ (y : Int) : DayFromYear (y + 1) = DayFromYear y + DaysInYear y := by
  unfold DayFromYear DaysInYear
  split_ifs <;> omega

theorem daysInYear_pos (y : Int) : 365 ≤ DaysInYear y := by
  unfold DaysInYear
  split_ifs <;> omega

theorem dayFromYear_add (a : Int) (n : Nat) : DayFromYear a ≤ DayFromYear (a + n) := by
  induction n with
  | zero => simp
  | succ k ih =>
    have h := dayFromYear_succ (a + k)
    have hp := daysInYear_pos (a + k)
    have e : a + ((k + 1 : Nat) : Int) = a + k + 1 := by push_cast; ring
    rw [e, h]
    omega

theorem dayFromYear_mono {a b : Int} (h : a ≤ b) : DayFromYear a ≤ DayFromYear b := by
  obtain ⟨n, rfl⟩ := Int.le.dest h
  exact dayFromYear_add a n

theorem yearFromDay_spec (d : Int) :
    DayFromYear (yearFromDay d) ≤ d ∧ d < DayFromYear (yearFromDay d + 1) := by
  unfold yearFromDay
  simp only
  split_ifs with h1 h2
  · refine ⟨h1, ?_⟩
    unfold DayFromYear at *
    omega
  · exact ⟨h2, by omega⟩
  · refine ⟨?_, ?_⟩
    · unfold DayFromYear at *
      omega
    · have : 1970 + 400 * d / 146097 - 1 + 1 = 1970 + 400 * d / 146097 := by ring
      rw [this]; omega

theorem yearFromDay_unique (d y : Int) (h1 : DayFromYear y ≤ d) (h2 : d < DayFromYear (y + 1)) :
    yearFromDay d = y := by
  have h := yearFromDay_spec d
  generalize yearFromDay d = y' at h
  rcases lt_trichotomy y' y with hlt | heq | hgt
  · have := dayFromYear_mono (show y' + 1 ≤ y by omega)
    omega
  · exact heq
  · have := dayFromYear_mono (show y + 1 ≤ y' by omega)
    omega

theorem inLeapYear_eq (t : Int) : DaysInYear (YearFromTime t) = 365 + InLeapYear t := by
  unfold InLeapYear
  split_ifs with h
  · omega
  · unfold DaysInYear at *
    split_ifs at * <;> omega

theorem inLeapYear_range (t : Int) : 0 ≤ InLeapYear t ∧ InLeapYear t ≤ 1 := by
  unfold InLeapYear
  split_ifs <;> omega

theorem dayWithinYear_range (t : Int) :
    0 ≤ DayWithinYear t ∧ DayWithinYear t < 365 + InLeapYear t := by
  have h := yearFromDay_spec (Day t)
  rw [dayFromYear_succ] at h
  have hl := inLeapYear_eq t
  unfold DayWithinYear YearFromTime at *
  omega

theorem monthOfDay_range (d l : Int) (hd : 0 ≤ d) (hd2 : d < 365 + l) (hl : 0 ≤ l)
    (hl2 : l ≤ 1) :
    0 ≤ monthOfDay d l ∧ monthOfDay d l ≤ 11 ∧
    daysBeforeMonth (monthOfDay d l) l ≤ d ∧ d ≤ daysBeforeMonth (monthOfDay d l) l + 30 := by
  generalize hm : monthOfDay d l = m
  unfold monthOfDay at hm
  by_cases h0 : d < 31
  · rw [if_pos h0] at hm
    subst hm
    rw [show daysBeforeMonth 0 l = 0 from rfl]
    omega
  rw [if_neg h0] at hm
  by_cases h1 : d < 59 + l
  · rw [if_pos h1] at hm
    subst hm
    rw [show daysBeforeMonth 1 l = 31 from rfl]
    omega
  rw [if_neg h1] at hm
  by_cases h2 : d < 90 + l
  · rw [if_pos h2] at hm
    subst hm
    rw [show daysBeforeMonth 2 l = 59 + l from rfl]
    omega
  rw [if_neg h2] at hm
  by_cases h3 : d < 120 + l
  · rw [if_pos h3] at hm
    subst hm
    rw [show daysBeforeMonth 3 l = 90 + l from rfl]
    omega
  rw [if_neg h3] at hm
  by_cases h4 : d < 151 + l
  · rw [if_pos h4] at hm
    subst hm
    rw [show daysBeforeMonth 4 l = 120 + l from rfl]
    omega
  rw [if_neg h4] at hm
  by_cases h5 : d < 181 + l
  · rw [if_pos h5] at hm
    subst hm
    rw [show daysBeforeMonth 5 l = 151 + l from rfl]
    omega
  rw [if_neg h5] at hm
  by_cases h6 : d < 212 + l
  · rw [if_pos h6] at hm
    subst hm
    rw [show daysBeforeMonth 6 l = 181 + l from rfl]
    omega
  rw [if_neg h6] at hm
  by_cases h7 : d < 243 + l
  · rw [if_pos h7] at hm
    subst hm
    rw [show daysBeforeMonth 7 l = 212 + l from rfl]
    omega
  rw [if_neg h7] at hm
  by_cases h8 : d < 273 + l
  · rw [if_pos h8] at hm
    subst hm
    rw [show daysBeforeMonth 8 l = 243 + l from rfl]
    omega
  rw [if_neg h8] at hm
  by_cases h9 : d < 304 + l
  · rw [if_pos h9] at hm
    subst hm
    rw [show daysBeforeMonth 9 l = 273 + l from rfl]
    omega
  rw [if_neg h9] at hm
  by_cases h10 : d < 334 + l
  · rw [if_pos h10] at hm
    subst hm
    rw [show daysBeforeMonth 10 l = 304 + l from rfl]
    omega
  rw [if_neg h10] at hm
  subst hm
  rw [show daysBeforeMonth 11 l = 334 + l from rfl]
  omega

theorem monthOfDay_start (m l : Int) (hm : 0 ≤ m) (hm2 : m ≤ 11) (hl : 0 ≤ l) (hl2 : l ≤ 1) :
    monthOfDay (daysBeforeMonth m l) l = m := by
  have hcases : m = 0 ∨ m = 1 ∨ m = 2 ∨ m = 3 ∨ m = 4 ∨ m = 5 ∨ m = 6 ∨ m = 7 ∨ m = 8 ∨
      m = 9 ∨ m = 10 ∨ m = 11 := by omega
  rcases hcases with h | h | h | h | h | h | h | h | h | h | h | h <;> subst h
  · rw [show daysBeforeMonth 0 l = 0 from rfl]
    unfold monthOfDay
    rw [if_pos (show (0 : Int) < 31 by omega)]
  · rw [show daysBeforeMonth 1 l = 31 from rfl]
    unfold monthOfDay
    rw [if_neg (show ¬ ((31 : Int) < 31) by omega),
      if_pos (show (31 : Int) < 59 + l by omega)]
  · rw [show daysBeforeMonth 2 l = 59 + l from rfl]
    unfold monthOfDay
    rw [if_neg (show ¬ (59 + l < 31) by omega),
      if_neg (show ¬ (59 + l < 59 + l) by omega),
      if_pos (show 59 + l < 90 + l by omega)]
  · rw [show daysBeforeMonth 3 l = 90 + l from rfl]
    unfold monthOfDay
    rw [if_neg (show ¬ (90 + l < 31) by omega),
      if_neg (show ¬ (90 + l < 59 + l) by omega),
      if_neg (show ¬ (90 + l < 90 + l) by omega),
      if_pos (show 90 + l < 120 + l by omega)]
  · rw [show daysBeforeMonth 4 l = 120 + l from rfl]
    unfold monthOfDay
    rw [if_neg (show ¬ (120 + l < 31) by omega),
      if_neg (show ¬ (120 + l < 59 + l) by omega),
      if_neg (show ¬ (120 + l < 90 + l) by omega),
      if_neg (show ¬ (120 + l < 120 + l) by omega),
      if_pos (show 120 + l < 151 + l by omega)]
  · rw [show daysBeforeMonth 5 l = 151 + l from rfl]
    unfold monthOfDay
    rw [if_neg (show ¬ (151 + l < 31) by omega),
      if_neg (show ¬ (151 + l < 59 + l) by omega),
      if_neg (show ¬ (151 + l < 90 + l) by omega),
      if_neg (show ¬ (151 + l < 120 + l) by omega),
      if_neg (show ¬ (151 + l < 151 + l) by omega),
      if_pos (show 151 + l < 181 + l by omega)]
  · rw [show daysBeforeMonth 6 l = 181 + l from rfl]
    unfold monthOfDay
    rw [if_neg (show ¬ (181 + l < 31) by omega),
      if_neg (show ¬ (181 + l < 59 + l) by omega),
      if_neg (show ¬ (181 + l < 90 + l) by omega),
      if_neg (show ¬ (181 + l < 120 + l) by omega),
      if_neg (show ¬ (181 + l < 151 + l) by omega),
      if_neg (show ¬ (181 + l < 181 + l) by omega),
      if_pos (show 181 + l < 212 + l by omega)]
  · rw [show daysBeforeMonth 7 l = 212 + l from rfl]
    unfold monthOfDay
    rw [if_neg (show ¬ (212 + l < 31) by omega),
      if_neg (show ¬ (212 + l < 59 + l) by omega),
      if_neg (show ¬ (212 + l < 90 + l) by omega),
      if_neg (show ¬ (212 + l < 120 + l) by omega),
      if_neg (show ¬ (212 + l < 151 + l) by omega),
      if_neg (show ¬ (212 + l < 181 + l) by omega),
      if_neg (show ¬ (212 + l < 212 + l) by omega),
      if_pos (show 212 + l < 243 + l by omega)]
  · rw [show daysBeforeMonth 8 l = 243 + l from rfl]
    unfold monthOfDay
    rw [if_neg (show ¬ (243 + l < 31) by omega),
      if_neg (show ¬ (243 + l < 59 + l) by omega),
      if_neg (show ¬ (243 + l < 90 + l) by omega),
      if_neg (show ¬ (243 + l < 120 + l) by omega),
      if_neg (show ¬ (243 + l < 151 + l) by omega),
      if_neg (show ¬ (243 + l < 181 + l) by omega),
      if_neg (show ¬ (243 + l < 212 + l) by omega),
      if_neg (show ¬ (243 + l < 243 + l) by omega),
      if_pos (show 243 + l < 273 + l by omega)]
  · rw [show daysBeforeMonth 9 l = 273 + l from rfl]
    unfold monthOfDay
    rw [if_neg (show ¬ (273 + l < 31) by omega),
      if_neg (show ¬ (273 + l < 59 + l) by omega),
      if_neg (show ¬ (273 + l < 90 + l) by omega),
      if_neg (show ¬ (273 + l < 120 + l) by omega),
      if_neg (show ¬ (273 + l < 151 + l) by omega),
      if_neg (show ¬ (273 + l < 181 + l) by omega),
      if_neg (show ¬ (273 + l < 212 + l) by omega),
      if_neg (show ¬ (273 + l < 243 + l) by omega),
      if_neg (show ¬ (273 + l < 273 + l) by omega),
      if_pos (show 273 + l < 304 + l by omega)]
  · rw [show daysBeforeMonth 10 l = 304 + l from rfl]
    unfold monthOfDay
    rw [if_neg (show ¬ (304 + l < 31) by omega),
      if_neg (show ¬ (304 + l < 59 + l) by omega),
      if_neg (show ¬ (304 + l < 90 + l) by omega),
      if_neg (show ¬ (304 + l < 120 + l) by omega),
      if_neg (show ¬ (304 + l < 151 + l) by omega),
      if_neg (show ¬ (304 + l < 181 + l) by omega),
      if_neg (show ¬ (304 + l < 212 + l) by omega),
      if_neg (show ¬ (304 + l < 243 + l) by omega),
      if_neg (show ¬ (304 + l < 273 + l) by omega),
      if_neg (show ¬ (304 + l < 304 + l) by omega),
      if_pos (show 304 + l < 334 + l by omega)]
  · rw [show daysBeforeMonth 11 l = 334 + l from rfl]
    unfold monthOfDay
    rw [if_neg (show ¬ (334 + l < 31) by omega),
      if_neg (show ¬ (334 + l < 59 + l) by omega),
      if_neg (show ¬ (334 + l < 90 + l) by omega),
      if_neg (show ¬ (334 + l < 120 + l) by omega),
      if_neg (show ¬ (334 + l < 151 + l) by omega),
      if_neg (show ¬ (334 + l < 181 + l) by omega),
      if_neg (show ¬ (334 + l < 212 + l) by omega),
      if_neg (show ¬ (334 + l < 243 + l) by omega),
      if_neg (show ¬ (334 + l < 273 + l) by omega),
      if_neg (show ¬ (334 + l < 304 + l) by omega),
      if_neg (show ¬ (334 + l < 334 + l) by omega)]

theorem daysBeforeMonth_nonneg (m l : Int) (hm : 0 ≤ m) (hm2 : m ≤ 11) (hl : 0 ≤ l) :
    0 ≤ daysBeforeMonth m l := by
  have hcases : m = 0 ∨ m = 1 ∨ m = 2 ∨ m = 3 ∨ m = 4 ∨ m = 5 ∨ m = 6 ∨ m = 7 ∨ m = 8 ∨
      m = 9 ∨ m = 10 ∨ m = 11 := by omega
  rcases hcases with h | h | h | h | h | h | h | h | h | h | h | h <;> subst h
  · exact le_of_eq (show (0 : Int) = daysBeforeMonth 0 l from rfl)
  · rw [show daysBeforeMonth 1 l = 31 from rfl]
    omega
  · rw [show daysBeforeMonth 2 l = 59 + l from rfl]
    omega
  · rw [show daysBeforeMonth 3 l = 90 + l from rfl]
    omega
  · rw [show daysBeforeMonth 4 l = 120 + l from rfl]
    omega
  · rw [show daysBeforeMonth 5 l = 151 + l from rfl]
    omega
  · rw [show daysBeforeMonth 6 l = 181 + l from rfl]
    omega
  · rw [show daysBeforeMonth 7 l = 212 + l from rfl]
    omega
  · rw [show daysBeforeMonth 8 l = 243 + l from rfl]
    omega
  · rw [show daysBeforeMonth 9 l = 273 + l from rfl]
    omega
  · rw [show daysBeforeMonth 10 l = 304 + l from rfl]
    omega
  · rw [show daysBeforeMonth 11 l = 334 + l from rfl]
    omega

theorem monthFromTime_range (t : Int) :
    0 ≤ MonthFromTime t ∧ MonthFromTime t ≤ 11 ∧
    daysBeforeMonth (MonthFromTime t) (InLeapYear t) ≤ DayWithinYear t ∧
    DayWithinYear t ≤ daysBeforeMonth (MonthFromTime t) (InLeapYear t) + 30 := by
  have hd := dayWithinYear_range t
  have hl := inLeapYear_range t
  exact monthOfDay_range _ _ hd.1 hd.2 hl.1 hl.2

theorem monthStart_fields (t : Int) :
    MakeDate (MakeDay (YearFromTime t) (MonthFromTime t) 1) (MakeTime 0 0 0 0) ≤ t ∧
    t - MakeDate (MakeDay (YearFromTime t) (MonthFromTime t) 1) (MakeTime 0 0 0 0)
      < 31 * msPerDay ∧
    YearFromTime (MakeDate (MakeDay (YearFromTime t) (MonthFromTime t) 1) (MakeTime 0 0 0 0))
      = YearFromTime t ∧
    MonthFromTime (MakeDate (MakeDay (YearFromTime t) (MonthFromTime t) 1) (MakeTime 0 0 0 0))
      = MonthFromTime t ∧
    DateFromTime (MakeDate (MakeDay (YearFromTime t) (MonthFromTime t) 1) (MakeTime 0 0 0 0))
      = 1 ∧
    TimeWithinDay (MakeDate (MakeDay (YearFromTime t) (MonthFromTime t) 1) (MakeTime 0 0 0 0))
      = 0 := by
  obtain ⟨hm0, hm11, hlo, hhi⟩ := monthFromTime_range t
  obtain ⟨hl0, hl1⟩ := inLeapYear_range t
  obtain ⟨hd0, hd1⟩ := dayWithinYear_range t
  have hleap := inLeapYear_eq t
  have hnn := daysBeforeMonth_nonneg (MonthFromTime t) (InLeapYear t) hm0 hm11 hl0
  have hstart := monthOfDay_start (MonthFromTime t) (InLeapYear t) hm0 hm11 hl0 hl1
  have hMD : MakeDay (YearFromTime t) (MonthFromTime t) 1 =
      DayFromYear (YearFromTime t) + daysBeforeMonth (MonthFromTime t) (InLeapYear t) := by
    have e1 : MonthFromTime t / 12 = 0 := by omega
    have e2 : MonthFromTime t % 12 = MonthFromTime t := by omega
    unfold MakeDay
    simp only [e1, e2, add_zero]
    unfold InLeapYear
    omega
  generalize hL : MakeDate (MakeDay (YearFromTime t) (MonthFromTime t) 1) (MakeTime 0 0 0 0) = L
  have hLv : L = (DayFromYear (YearFromTime t) +
      daysBeforeMonth (MonthFromTime t) (InLeapYear t)) * 86400000 := by
    rw [← hL, hMD]
    simp [MakeDate, MakeTime, msPerDay]
  have hDay : Day L = DayFromYear (YearFromTime t) +
      daysBeforeMonth (MonthFromTime t) (InLeapYear t) := by
    unfold Day msPerDay
    omega
  have hYear : YearFromTime L = YearFromTime t := by
    unfold YearFromTime
    rw [hDay]
    apply yearFromDay_unique
    · change DayFromYear (YearFromTime t) ≤ _
      omega
    · change _ < DayFromYear (YearFromTime t + 1)
      rw [dayFromYear_succ]
      omega
  have hLeap : InLeapYear L = InLeapYear t := by
    unfold InLeapYear
    rw [hYear]
  have hDWY : DayWithinYear L = daysBeforeMonth (MonthFromTime t) (InLeapYear t) := by
    unfold DayWithinYear
    rw [hDay, hYear]
    omega
  have hMonth : MonthFromTime L = MonthFromTime t := by
    conv_lhs => unfold MonthFromTime
    rw [hDWY, hLeap]
    exact hstart
  refine ⟨?_, ?_, hYear, hMonth, ?_, ?_⟩
  · unfold DayWithinYear Day msPerDay at hlo
    omega
  · unfold DayWithinYear Day msPerDay at hhi
    unfold msPerDay
    omega
  · unfold DateFromTime
    rw [hDWY, hMonth, hLeap]
    omega
  · unfold TimeWithinDay msPerDay
    omega

theorem timeValue_eq_of_fields (a b : Int) (hy : YearFromTime a = YearFromTime b)
    (hm : MonthFromTime a = MonthFromTime b) (hd : DateFromTime a = DateFromTime b)
    (ht : TimeWithinDay a = TimeWithinDay b) : a = b := by
  have hl : InLeapYear a = InLeapYear b := by
    unfold InLeapYear
    rw [hy]
  unfold DateFromTime at hd
  rw [hm, hl] at hd
  unfold DayWithinYear at hd
  rw [hy] at hd
  unfold Day TimeWithinDay msPerDay at *
  omega

theorem timeClip_cases (t : Int) : TimeClip t = none ∨ TimeClip t = some t := by
  unfold TimeClip
  split
  · exact Or.inl rfl
  · exact Or.inr rfl

theorem mem_monthlyTransactions {V : Type} (P : Platform V) (now start : Int)
    (transactions : List (Transaction V)) (hs : startOfMonth P now = some start)
    (t : Transaction V) (ht : t ∈ transactions) :
    (t ∈ monthlyTransactions P now transactions ↔
      ∃ d, t.transaction_date = some d ∧ start ≤ d) ∧
    (t ∉ monthlyTransactions P now transactions →
      t.transaction_date = none ∨ ∃ d, t.transaction_date = some d ∧ d < start) := by
  unfold monthlyTransactions
  rw [hs]
  cases hd : t.transaction_date with
  | none => simp [List.mem_filter, dateGe, hd]
  | some d =>
    simp only [List.mem_filter, ht, true_and, dateGe, hd, decide_eq_true_eq]
    constructor
    · constructor
      · intro h
        exact ⟨d, rfl, h⟩
      · rintro ⟨d', hd', h⟩
        cases hd'
        exact h
    · intro h
      exact Or.inr ⟨d, rfl, by omega⟩

theorem sumOfBalances_eq_foldl {V : Type} [Add V] [Zero V] (P : Platform V)
    (l : List (Account V)) (acc : V) :
    sumOfBalances P l acc = l.foldl (fun sum a => sum + P.parseFloat a.current_balance) acc := by
  induction l generalizing acc with
  | nil => rfl
  | cons a rest ih => simp [sumOfBalances, ih]

theorem isOverdue_iff {V : Type} (now : Int) (planned : PlannedTransaction V) :
    isOverdue now planned = true ↔ ∃ d, planned.planned_date = some d ∧ d < now := by
  unfold isOverdue
  cases hd : planned.planned_date with
  | none => simp [dateLt]
  | some d => simp [dateLt]

theorem plannedRow_treatment {V : Type} (P : Platform V) (now : Int)
    (planned : PlannedTransaction V) :
    (isOverdue now planned = true → HasOverdueTreatment (plannedRow P now planned)) ∧
    (isOverdue now planned = false → HasPlainTreatment (plannedRow P now planned)) := by
  constructor
  · intro h
    simp [HasOverdueTreatment, plannedRow, h]
  · intro h
    simp [HasPlainTreatment, plannedRow, h]

theorem plannedList_getElem? {V : Type} (P : Platform V) (clock : Nat → Int) (s : App V)
    (i : Nat) :
    (updatePlannedTransactionsList P clock s).dom.plannedList[i]? =
      (s.store.plannedTransactions[i]?).map (plannedRow P (clock i)) := by
  simp only [updatePlannedTransactionsList, appendEach_eq, List.nil_append, List.getElem?_map,
    List.getElem?_enum, Option.map_map]
  rfl

/-! ## Properties -/

/-- C1, as stated, fails: with the single in-month transfer `sampleTransfer` the
income entries, the expense entries and the out-of-range entries are all empty,
so together they do not contain the one entry of the list. -/
theorem partition_without_other_types_counterexample :
    incomeTransactions samplePlatform sampleNow [sampleTransfer] = [] ∧
    expenseTransactions samplePlatform sampleNow [sampleTransfer] = [] ∧
    outOfRangeTransactions samplePlatform sampleNow [sampleTransfer] = [] ∧
    ¬ (incomeTransactions samplePlatform sampleNow [sampleTransfer] ++
        expenseTransactions samplePlatform sampleNow [sampleTransfer] ++
        outOfRangeTransactions samplePlatform sampleNow [sampleTransfer]).Perm
      [sampleTransfer] := by
  have hi : incomeTransactions samplePlatform sampleNow [sampleTransfer] = [] := by rfl
  have he : expenseTransactions samplePlatform sampleNow [sampleTransfer] = [] := by rfl
  have ho : outOfRangeTransactions samplePlatform sampleNow [sampleTransfer] = [] := by rfl
  refine ⟨hi, he, ho, ?_⟩
  rw [hi, he, ho]
  intro h
  exact absurd h.length_eq (by decide)

/-- C1, amended: for every transaction list and every current time, the in-month
income entries, the in-month expense entries, the in-month entries of any other
type and the out-of-range entries together contain every entry of the list
exactly once (they are a permutation of the list). -/
theorem dashboard_partition_totality {V : Type} (P : Platform V) (now : Int)
    (transactions : List (Transaction V)) :
    (incomeTransactions P now transactions ++ expenseTransactions P now transactions ++
      otherMonthlyTransactions P now transactions ++
      outOfRangeTransactions P now transactions).Perm transactions := by
  have hm := filter_type_split (monthlyTransactions P now transactions)
  have ht := List.filter_append_perm
    (fun t : Transaction V => dateGe t.transaction_date (startOfMonth P now)) transactions
  unfold incomeTransactions expenseTransactions otherMonthlyTransactions outOfRangeTransactions
  rw [List.append_assoc (List.filter _ (monthlyTransactions P now transactions))]
  exact (List.Perm.append_right _ hm).trans ht

/-- C2, as stated, fails in three ways. `sampleUndated`, whose
`transaction_date` does not parse, is excluded by the current-month filter and
has no date earlier than the start of the month. At a current time in the year
50 the script's `startOfMonth` lies in 1950, so a transaction of the year 1000
is excluded although it is dated after local midnight of the first day of the
current month. At the earliest instant of `Date` the start of the month is out
of range, `startOfMonth` is invalid, and a transaction dated at that very
instant is excluded. -/
theorem excluded_not_earlier_counterexample :
    (sampleUndated ∉ monthlyTransactions samplePlatform sampleNow [sampleUndated] ∧
      startOfMonth samplePlatform sampleNow = some 1709240400000 ∧
      ¬ ∃ d, sampleUndated.transaction_date = some d ∧ d < 1709240400000) ∧
    (IsLocalMidnightOfFirstDay samplePlatform sampleYear50Now (-60576249600000) ∧
      startOfMonth samplePlatform sampleYear50Now = some (-618116400000) ∧
      sampleYear1000 ∉ monthlyTransactions samplePlatform sampleYear50Now [sampleYear1000] ∧
      sampleYear1000.transaction_date = some (-30610224000000) ∧
      UTC samplePlatform (-60576249600000) ≤ -30610224000000) ∧
    (IsLocalMidnightOfFirstDay samplePlatform sampleEarliestNow (-8640001641600000) ∧
      startOfMonth samplePlatform sampleEarliestNow = none ∧
      sampleAtEarliest ∉ monthlyTransactions samplePlatform sampleEarliestNow
        [sampleAtEarliest] ∧
      sampleAtEarliest.transaction_date = some (-8640000000000000) ∧
      UTC samplePlatform (-8640001641600000) ≤ -8640000000000000) := by
  refine ⟨⟨?_, startOfMonth_sample, ?_⟩, ⟨?_, by decide, ?_, rfl, by decide⟩,
    ⟨?_, by decide, ?_, rfl, by decide⟩⟩
  · have h : monthlyTransactions samplePlatform sampleNow [sampleUndated] = [] := by rfl
    rw [h]
    exact List.not_mem_nil _
  · rintro ⟨d, hd, _⟩
    exact Option.noConfusion hd
  · unfold IsLocalMidnightOfFirstDay
    decide
  · have h : monthlyTransactions samplePlatform sampleYear50Now [sampleYear1000] = [] := by rfl
    rw [h]
    exact List.not_mem_nil _
  · unfold IsLocalMidnightOfFirstDay
    decide
  · have h : monthlyTransactions samplePlatform sampleEarliestNow [sampleAtEarliest] = [] := by
      rfl
    rw [h]
    exact List.not_mem_nil _

/-- C2, amended: at every current time whose local year is not one of the years
0 to 99 and for which `startOfMonth` is a valid date, there is exactly one
local time value `L` that reads as the local year and month of the current time,
day 1, 00:00:00.000, and `startOfMonth` is its instant `UTC L`; the getters
read that instant as this year and month, day 1, 00:00:00.000 exactly when the
platform reads it back with the offset it converted `L` with (no clock change
skips that local midnight); the current-month filter includes a transaction
exactly when its `transaction_date` is valid and at or after that instant, and
every transaction it excludes has a `transaction_date` that is invalid or
strictly earlier than that instant. -/
theorem current_month_filter {V : Type} (P : Platform V) (now : Int)
    (transactions : List (Transaction V))
    (hyear : ¬ (0 ≤ getFullYear P now ∧ getFullYear P now ≤ 99))
    (hvalid : startOfMonth P now ≠ none) :
    ∃ L, IsLocalMidnightOfFirstDay P now L ∧
      (∀ L', IsLocalMidnightOfFirstDay P now L' → L' = L) ∧
      startOfMonth P now = some (UTC P L) ∧
      ((getFullYear P (UTC P L) = getFullYear P now ∧
          getMonth P (UTC P L) = getMonth P now ∧
          getDate P (UTC P L) = 1 ∧ TimeWithinDay (LocalTime P (UTC P L)) = 0) ↔
        P.localTZA (UTC P L) true = P.localTZA L false) ∧
      ∀ t ∈ transactions,
        (t ∈ monthlyTransactions P now transactions ↔
          ∃ d, t.transaction_date = some d ∧ UTC P L ≤ d) ∧
        (t ∉ monthlyTransactions P now transactions →
          t.transaction_date = none ∨ ∃ d, t.transaction_date = some d ∧ d < UTC P L) := by
  obtain ⟨_, _, hY, hM, hD, hT⟩ := monthStart_fields (LocalTime P now)
  have hdef : startOfMonth P now = TimeClip (UTC P (MakeDate
      (MakeDay (YearFromTime (LocalTime P now)) (MonthFromTime (LocalTime P now)) 1)
      (MakeTime 0 0 0 0))) := by
    unfold startOfMonth newDateYMD
    simp only
    rw [if_neg hyear]
    rfl
  generalize MakeDate
    (MakeDay (YearFromTime (LocalTime P now)) (MonthFromTime (LocalTime P now)) 1)
    (MakeTime 0 0 0 0) = L at hY hM hD hT hdef
  have hstart : startOfMonth P now = some (UTC P L) := by
    rcases timeClip_cases (UTC P L) with hc | hc
    · exact absurd (hdef.trans hc) hvalid
    · exact hdef.trans hc
  refine ⟨L, ⟨hY, hM, hD, hT⟩, ?_, hstart, ?_, ?_⟩
  · rintro L' ⟨hY', hM', hD', hT'⟩
    exact timeValue_eq_of_fields L' L (hY'.trans hY.symm) (hM'.trans hM.symm)
      (hD'.trans hD.symm) (hT'.trans hT.symm)
  · constructor
    · rintro ⟨hy, hm, hd, ht⟩
      have hlocal : LocalTime P (UTC P L) = L :=
        timeValue_eq_of_fields _ L (hy.trans hY.symm) (hm.trans hM.symm)
          (hd.trans hD.symm) (ht.trans hT.symm)
      unfold LocalTime UTC at hlocal
      unfold UTC
      omega
    · intro hz
      have hlocal : LocalTime P (UTC P L) = L := by
        unfold LocalTime
        rw [hz]
        unfold UTC
        omega
      unfold getFullYear getMonth getDate
      rw [hlocal]
      exact ⟨hY, hM, hD, hT⟩
  · intro t ht
    exact mem_monthlyTransactions P now (UTC P L) transactions hstart t ht

/-- C2 at 2024-03-15T12:00:00Z, first in New York time, where the offset
changed on 10 March: the start of the month is 2024-03-01T00:00 at the offset of
1 March, it reads back as day 1 at 00:00:00.000, the income of 5 March is
included and the expense of 20 February is excluded; then in the zone UTC+3,
where the undated income is excluded. -/
theorem current_month_filter_witness :
    (startOfMonth sampleDstPlatform sampleNow = some 1709269200000 ∧
      getFullYear sampleDstPlatform 1709269200000 = getFullYear sampleDstPlatform sampleNow ∧
      getMonth sampleDstPlatform 1709269200000 = getMonth sampleDstPlatform sampleNow ∧
      getDate sampleDstPlatform 1709269200000 = 1 ∧
      TimeWithinDay (LocalTime sampleDstPlatform 1709269200000) = 0 ∧
      sampleIncome ∈ monthlyTransactions sampleDstPlatform sampleNow
        [sampleIncome, sampleUndated, sampleOldExpense] ∧
      sampleOldExpense ∉ monthlyTransactions sampleDstPlatform sampleNow
        [sampleIncome, sampleUndated, sampleOldExpense]) ∧
    (startOfMonth samplePlatform sampleNow = some 1709240400000 ∧
      sampleUndated ∉ monthlyTransactions samplePlatform sampleNow
        [sampleIncome, sampleUndated, sampleOldExpense]) := by
  constructor
  · obtain ⟨L, _, huniq, hs, hback, hf⟩ :=
      current_month_filter sampleDstPlatform sampleNow
        [sampleIncome, sampleUndated, sampleOldExpense] (by decide) (by decide)
    have hL : (1709251200000 : Int) = L :=
      huniq 1709251200000 (by unfold IsLocalMidnightOfFirstDay; decide)
    subst hL
    have hu : UTC sampleDstPlatform 1709251200000 = 1709269200000 := by decide
    rw [hu] at hs hback hf
    obtain ⟨hy, hm, hd, ht⟩ := hback.mpr (by decide)
    refine ⟨hs, hy, hm, hd, ht, ?_, ?_⟩
    · exact (hf sampleIncome (by simp)).1.mpr ⟨1709596800000, rfl, by decide⟩
    · intro hmem
      obtain ⟨d, hdate, hle⟩ := (hf sampleOldExpense (by simp)).1.mp hmem
      cases hdate
      exact absurd hle (by decide)
  · obtain ⟨L, _, _, hs, _, hf⟩ :=
      current_month_filter samplePlatform sampleNow
        [sampleIncome, sampleUndated, sampleOldExpense] (by decide) (by decide)
    refine ⟨startOfMonth_sample, ?_⟩
    intro hmem
    obtain ⟨d, hdate, _⟩ := (hf sampleUndated (by simp)).1.mp hmem
    exact Option.noConfusion hdate

/-- C3: the monthly income shown by `updateDashboardStats` is the formatted sum
of `amount` over the transactions that pass the current-month filter and have
type `'income'`, the monthly expense shown is the formatted sum over those that
pass it and have type `'expense'`, and a sum over an empty subset is 0. -/
theorem dashboard_monthly_sums {V : Type} [Add V] [Zero V] (P : Platform V) (now : Int)
    (s : App V) :
    (updateDashboardStats P now s).dom.monthlyIncome =
      formatCurrency P
        (sumOfAmounts P (s.store.transactions.filter (inMonthOfType P now "income")) 0) ∧
    (updateDashboardStats P now s).dom.monthlyExpense =
      formatCurrency P
        (sumOfAmounts P (s.store.transactions.filter (inMonthOfType P now "expense")) 0) ∧
    (s.store.transactions.filter (inMonthOfType P now "income") = [] →
      (updateDashboardStats P now s).dom.monthlyIncome = formatCurrency P 0) ∧
    (s.store.transactions.filter (inMonthOfType P now "expense") = [] →
      (updateDashboardStats P now s).dom.monthlyExpense = formatCurrency P 0) := by
  have hi : (updateDashboardStats P now s).dom.monthlyIncome =
      formatCurrency P
        (sumOfAmounts P (s.store.transactions.filter (inMonthOfType P now "income")) 0) := by
    simp only [updateDashboardStats, monthlyIncome, incomeTransactions, monthlyTransactions,
      List.filter_filter, sumOfAmounts_eq_foldl, Bool.and_comm]
    rfl
  have he : (updateDashboardStats P now s).dom.monthlyExpense =
      formatCurrency P
        (sumOfAmounts P (s.store.transactions.filter (inMonthOfType P now "expense")) 0) := by
    simp only [updateDashboardStats, monthlyExpense, expenseTransactions, monthlyTransactions,
      List.filter_filter, sumOfAmounts_eq_foldl, Bool.and_comm]
    rfl
  refine ⟨hi, he, ?_, ?_⟩
  · intro h
    rw [hi, h]
    rfl
  · intro h
    rw [he, h]
    rfl

/-- C3 at a sample page: of an in-month income, an in-month transfer, an
undated income and an expense of the month before, only the first counts, and
the expense subset is empty. -/
theorem dashboard_monthly_sums_witness :
    (updateDashboardStats samplePlatform sampleNow
        (sampleApp [sampleIncome, sampleTransfer, sampleUndated, sampleOldExpense])).dom.monthlyIncome
      = "1000 ₽" ∧
    (updateDashboardStats samplePlatform sampleNow
        (sampleApp [sampleIncome, sampleTransfer, sampleUndated, sampleOldExpense])).dom.monthlyExpense
      = formatCurrency samplePlatform 0 := by
  have h := dashboard_monthly_sums samplePlatform sampleNow
    (sampleApp [sampleIncome, sampleTransfer, sampleUndated, sampleOldExpense])
  refine ⟨?_, h.2.2.2 (by rfl)⟩
  rw [h.1]
  decide

/-- C4: `updateRecentTransactions` renders exactly `min(5, length)` rows, and
they are the rows of the first `min(5, length)` transactions in list order: row
`i` is the row of transaction `i` for `i < 5`, and there is no row from
position 5 on. -/
theorem recent_transactions_first_five {V : Type} (P : Platform V) (s : App V) :
    (updateRecentTransactions P s).dom.recentTransactions.length =
      min 5 s.store.transactions.length ∧
    (updateRecentTransactions P s).dom.recentTransactions =
      (s.store.transactions.take (min 5 s.store.transactions.length)).map (recentRow P) ∧
    ∀ i : Nat, (updateRecentTransactions P s).dom.recentTransactions[i]? =
      if i < 5 then (s.store.transactions[i]?).map (recentRow P) else none := by
  have hrows : (updateRecentTransactions P s).dom.recentTransactions =
      (s.store.transactions.take 5).map (recentRow P) := by
    simp [updateRecentTransactions, recentTransactions, appendEach_eq]
  refine ⟨?_, ?_, ?_⟩
  · rw [hrows]
    simp
  · rw [hrows]
    congr 1
    rcases Nat.le_total 5 s.store.transactions.length with h | h
    · rw [Nat.min_eq_left h]
    · rw [Nat.min_eq_right h, List.take_of_length_le h, List.take_of_length_le (Nat.le_refl _)]
  · intro i
    rw [hrows]
    by_cases hi : i < 5
    · simp [hi, List.getElem?_take]
    · simp [hi, List.getElem?_take]

/-- C5 at caller options `{ method: 'POST', headers: { Authorization: 'Bearer t' } }`:
the request carries the caller's header alone; the merged headers object, the
default `Content-Type` with it, is replaced by `options.headers` when `options`
is spread after it. -/
theorem apiCall_caller_headers_replace_default :
    (apiRequest "/transactions" sampleOptions).headers =
      [("Authorization", JsValue.string "Bearer t")] ∧
    hasProp (apiRequest "/transactions" sampleOptions).headers "Content-Type" = false ∧
    hasProp (spread (setProp [] "Content-Type" (JsValue.string "application/json"))
      (getProp sampleOptions "headers")) "Content-Type" = true ∧
    (apiRequest "/transactions" [("method", JsValue.string "POST")]).headers =
      [("Content-Type", JsValue.string "application/json")] := by
  refine ⟨by rfl, by rfl, by rfl, by rfl⟩

/-- C6: for each of the six loaders and every prior state, if the loader's API
call fails then the loader completes normally, every slice of the store (its own
and the others) and the DOM are as before, and the error notification with that
loader's fixed message is shown. -/
theorem loaders_keep_store_on_failure {V : Type} [Add V] [Zero V] (P : Platform V)
    (now : Int) (clock : Nat → Int) (s : App V) (e : JsError) :
    (∀ outcome : FetchOutcome (List (Account V)),
      (apiCall "/accounts" [] outcome s).1 = Except.error e →
      FailedQuietly "Не удалось загрузить счета" s (loadAccounts P outcome s)) ∧
    (∀ outcome : FetchOutcome (List Category),
      (apiCall "/income-categories" [] outcome s).1 = Except.error e →
      FailedQuietly "Не удалось загрузить категории доходов" s
        (loadIncomeCategories outcome s)) ∧
    (∀ outcome : FetchOutcome (List Category),
      (apiCall "/expense-categories" [] outcome s).1 = Except.error e →
      FailedQuietly "Не удалось загрузить категории расходов" s
        (loadExpenseCategories outcome s)) ∧
    (∀ outcome : FetchOutcome (List BusinessDirection),
      (apiCall "/business-directions" [] outcome s).1 = Except.error e →
      FailedQuietly "Не удалось загрузить направления деятельности" s
        (loadBusinessDirections outcome s)) ∧
    (∀ outcome : FetchOutcome (List (Transaction V)),
      (apiCall "/transactions" [] outcome s).1 = Except.error e →
      FailedQuietly "Не удалось загрузить операции" s (loadTransactions P now outcome s)) ∧
    (∀ outcome : FetchOutcome (List (PlannedTransaction V)),
      (apiCall "/planned-transactions" [] outcome s).1 = Except.error e →
      FailedQuietly "Не удалось загрузить плановые операции" s
        (loadPlannedTransactions P clock outcome s)) := by
  refine ⟨?_, ?_, ?_, ?_, ?_, ?_⟩
  · intro outcome h
    have hs := apiCall_error_state "/accounts" [] outcome s e h
    simp only [loadAccounts, tryCatch, FailedQuietly, showError]
    generalize apiCall "/accounts" [] outcome s = r at h hs
    obtain ⟨r1, r2⟩ := r
    simp only at h hs
    subst h
    exact ⟨rfl, hs.1, hs.2.1, congrArg (fun a => a ++ [_]) hs.2.2⟩
  · intro outcome h
    have hs := apiCall_error_state "/income-categories" [] outcome s e h
    simp only [loadIncomeCategories, tryCatch, FailedQuietly, showError]
    generalize apiCall "/income-categories" [] outcome s = r at h hs
    obtain ⟨r1, r2⟩ := r
    simp only at h hs
    subst h
    exact ⟨rfl, hs.1, hs.2.1, congrArg (fun a => a ++ [_]) hs.2.2⟩
  · intro outcome h
    have hs := apiCall_error_state "/expense-categories" [] outcome s e h
    simp only [loadExpenseCategories, tryCatch, FailedQuietly, showError]
    generalize apiCall "/expense-categories" [] outcome s = r at h hs
    obtain ⟨r1, r2⟩ := r
    simp only at h hs
    subst h
    exact ⟨rfl, hs.1, hs.2.1, congrArg (fun a => a ++ [_]) hs.2.2⟩
  · intro outcome h
    have hs := apiCall_error_state "/business-directions" [] outcome s e h
    simp only [loadBusinessDirections, tryCatch, FailedQuietly, showError]
    generalize apiCall "/business-directions" [] outcome s = r at h hs
    obtain ⟨r1, r2⟩ := r
    simp only at h hs
    subst h
    exact ⟨rfl, hs.1, hs.2.1, congrArg (fun a => a ++ [_]) hs.2.2⟩
  · intro outcome h
    have hs := apiCall_error_state "/transactions" [] outcome s e h
    simp only [loadTransactions, tryCatch, FailedQuietly, showError]
    generalize apiCall "/transactions" [] outcome s = r at h hs
    obtain ⟨r1, r2⟩ := r
    simp only at h hs
    subst h
    exact ⟨rfl, hs.1, hs.2.1, congrArg (fun a => a ++ [_]) hs.2.2⟩
  · intro outcome h
    have hs := apiCall_error_state "/planned-transactions" [] outcome s e h
    simp only [loadPlannedTransactions, tryCatch, FailedQuietly, showError]
    generalize apiCall "/planned-transactions" [] outcome s = r at h hs
    obtain ⟨r1, r2⟩ := r
    simp only at h hs
    subst h
    exact ⟨rfl, hs.1, hs.2.1, congrArg (fun a => a ++ [_]) hs.2.2⟩

/-- C6 at a page holding one transaction whose six requests are all answered
with status 500: each loader ends normally with the store and the DOM as they
were and its own message shown. -/
theorem loaders_keep_store_on_failure_witness :
    FailedQuietly "Не удалось загрузить счета" (sampleApp [sampleIncome])
      (loadAccounts samplePlatform (sampleFailure _) (sampleApp [sampleIncome])) ∧
    FailedQuietly "Не удалось загрузить категории доходов" (sampleApp [sampleIncome])
      (loadIncomeCategories (sampleFailure _) (sampleApp [sampleIncome])) ∧
    FailedQuietly "Не удалось загрузить категории расходов" (sampleApp [sampleIncome])
      (loadExpenseCategories (sampleFailure _) (sampleApp [sampleIncome])) ∧
    FailedQuietly "Не удалось загрузить направления деятельности" (sampleApp [sampleIncome])
      (loadBusinessDirections (sampleFailure _) (sampleApp [sampleIncome])) ∧
    FailedQuietly "Не удалось загрузить операции" (sampleApp [sampleIncome])
      (loadTransactions samplePlatform sampleNow (sampleFailure _) (sampleApp [sampleIncome])) ∧
    FailedQuietly "Не удалось загрузить плановые операции" (sampleApp [sampleIncome])
      (loadPlannedTransactions samplePlatform (fun _ => sampleNow) (sampleFailure _)
        (sampleApp [sampleIncome])) :=
  have h := loaders_keep_store_on_failure samplePlatform sampleNow (fun _ => sampleNow)
    (sampleApp [sampleIncome]) ⟨"HTTP error! status: 500"⟩
  ⟨h.1 (sampleFailure _) rfl, h.2.1 (sampleFailure _) rfl, h.2.2.1 (sampleFailure _) rfl,
    h.2.2.2.1 (sampleFailure _) rfl, h.2.2.2.2.1 (sampleFailure _) rfl,
    h.2.2.2.2.2 (sampleFailure _) rfl⟩

/-- C7: when the start date or the end date field is empty, `generateReports`
issues no request, shows the validation error notification and leaves both
report panels (and the rest of the DOM and the store) unchanged; when both are
given, its first request, to the cash-flow report of that period, is issued. -/
theorem generateReports_requires_both_dates {V : Type} (P : Platform V)
    (cashFlow : FetchOutcome (CashFlowData V)) (profitLoss : FetchOutcome (ProfitLossData V))
    (s : App V) :
    (s.dom.reportStartDate = "" ∨ s.dom.reportEndDate = "" →
      (generateReports P cashFlow profitLoss s).2.requests = s.requests ∧
      (generateReports P cashFlow profitLoss s).2.alerts =
        s.alerts ++ ["Ошибка: Выберите период для отчета"] ∧
      (generateReports P cashFlow profitLoss s).2.dom.cashFlowReport = s.dom.cashFlowReport ∧
      (generateReports P cashFlow profitLoss s).2.dom.profitLossReport =
        s.dom.profitLossReport ∧
      (generateReports P cashFlow profitLoss s).2.dom = s.dom ∧
      (generateReports P cashFlow profitLoss s).2.store = s.store ∧
      (generateReports P cashFlow profitLoss s).1 = Except.ok ()) ∧
    (s.dom.reportStartDate ≠ "" ∧ s.dom.reportEndDate ≠ "" →
      ∃ rest, (generateReports P cashFlow profitLoss s).2.requests =
        s.requests ++
          apiRequest ("/reports/cash-flow?start_date=" ++ s.dom.reportStartDate ++
            "&end_date=" ++ s.dom.reportEndDate) [] :: rest) := by
  constructor
  · intro h
    simp [generateReports, if_pos h, showError]
  · intro h
    have hn : ¬ (s.dom.reportStartDate = "" ∨ s.dom.reportEndDate = "") := by
      rintro (h1 | h1)
      · exact h.1 h1
      · exact h.2 h1
    simp only [generateReports, if_neg hn, tryCatch]
    have h1 := apiCall_requests (V := V) ("/reports/cash-flow?start_date=" ++
      s.dom.reportStartDate ++ "&end_date=" ++ s.dom.reportEndDate) [] cashFlow s
    generalize apiCall ("/reports/cash-flow?start_date=" ++
      s.dom.reportStartDate ++ "&end_date=" ++ s.dom.reportEndDate) [] cashFlow s = r at h1
    obtain ⟨r1, r2⟩ := r
    simp only at h1
    cases r1 with
    | error e => exact ⟨[], by simp [showError, h1]⟩
    | ok data =>
      simp only []
      have h2 := apiCall_requests (V := V) ("/reports/profit-loss?start_date=" ++
        s.dom.reportStartDate ++ "&end_date=" ++ s.dom.reportEndDate) [] profitLoss
        { r2 with dom := { r2.dom with cashFlowReport := cashFlowHtml P data } }
      generalize apiCall ("/reports/profit-loss?start_date=" ++
        s.dom.reportStartDate ++ "&end_date=" ++ s.dom.reportEndDate) [] profitLoss
        { r2 with dom := { r2.dom with cashFlowReport := cashFlowHtml P data } } = q at h2
      obtain ⟨q1, q2⟩ := q
      simp only at h2
      cases q1 with
      | error e =>
        exact ⟨[apiRequest ("/reports/profit-loss?start_date=" ++ s.dom.reportStartDate ++
          "&end_date=" ++ s.dom.reportEndDate) []], by simp [showError, h2, h1]⟩
      | ok data2 =>
        exact ⟨[apiRequest ("/reports/profit-loss?start_date=" ++ s.dom.reportStartDate ++
          "&end_date=" ++ s.dom.reportEndDate) []], by simp [h2, h1]⟩

/-- C7 on sample pages: with the start date missing nothing is requested and
the validation message is shown; with both dates given the cash-flow request is
the first one issued. -/
theorem generateReports_requires_both_dates_witness :
    (generateReports samplePlatform (sampleFailure _) (sampleFailure _)
      (sampleReportApp "" "2024-03-31")).2.requests = [] ∧
    (generateReports samplePlatform (sampleFailure _) (sampleFailure _)
      (sampleReportApp "" "2024-03-31")).2.alerts = ["Ошибка: Выберите период для отчета"] ∧
    ∃ rest, (generateReports samplePlatform (sampleFailure _) (sampleFailure _)
      (sampleReportApp "2024-03-01" "2024-03-31")).2.requests =
        apiRequest "/reports/cash-flow?start_date=2024-03-01&end_date=2024-03-31" [] :: rest :=
  have h1 := (generateReports_requires_both_dates samplePlatform (sampleFailure _)
    (sampleFailure _) (sampleReportApp "" "2024-03-31")).1 (Or.inl rfl)
  have h2 := (generateReports_requires_both_dates samplePlatform (sampleFailure _)
    (sampleFailure _) (sampleReportApp "2024-03-01" "2024-03-31")).2 ⟨by decide, by decide⟩
  ⟨h1.1, h1.2.1, h2⟩

/-- C8: `updateTransactionFormFields` shows and hides the four field groups as
the table states: for `income` the to-account and income-category groups are
shown and the other two hidden, for `expense` the from-account and
expense-category groups are shown and the other two hidden, for `transfer` both
account groups are shown and both category groups hidden. -/
theorem form_field_visibility {V : Type} (s : App V) :
    (s.dom.transactionType = "income" →
      (updateTransactionFormFields s).dom.fromAccountGroupDisplay = "none" ∧
      (updateTransactionFormFields s).dom.toAccountGroupDisplay = "block" ∧
      (updateTransactionFormFields s).dom.incomeCategoryGroupDisplay = "block" ∧
      (updateTransactionFormFields s).dom.expenseCategoryGroupDisplay = "none") ∧
    (s.dom.transactionType = "expense" →
      (updateTransactionFormFields s).dom.fromAccountGroupDisplay = "block" ∧
      (updateTransactionFormFields s).dom.toAccountGroupDisplay = "none" ∧
      (updateTransactionFormFields s).dom.incomeCategoryGroupDisplay = "none" ∧
      (updateTransactionFormFields s).dom.expenseCategoryGroupDisplay = "block") ∧
    (s.dom.transactionType = "transfer" →
      (updateTransactionFormFields s).dom.fromAccountGroupDisplay = "block" ∧
      (updateTransactionFormFields s).dom.toAccountGroupDisplay = "block" ∧
      (updateTransactionFormFields s).dom.incomeCategoryGroupDisplay = "none" ∧
      (updateTransactionFormFields s).dom.expenseCategoryGroupDisplay = "none") := by
  refine ⟨?_, ?_, ?_⟩ <;> intro h <;> simp only [updateTransactionFormFields, h] <;> decide

/-- C8 on the sample page with each of the three types selected. -/
theorem form_field_visibility_witness :
    ((updateTransactionFormFields (sampleFormApp "income")).dom.fromAccountGroupDisplay = "none" ∧
      (updateTransactionFormFields (sampleFormApp "income")).dom.toAccountGroupDisplay = "block" ∧
      (updateTransactionFormFields (sampleFormApp "income")).dom.incomeCategoryGroupDisplay
        = "block" ∧
      (updateTransactionFormFields (sampleFormApp "income")).dom.expenseCategoryGroupDisplay
        = "none") ∧
    (updateTransactionFormFields (sampleFormApp "expense")).dom.fromAccountGroupDisplay = "block" ∧
    (updateTransactionFormFields (sampleFormApp "transfer")).dom.toAccountGroupDisplay = "block" :=
  ⟨(form_field_visibility (sampleFormApp "income")).1 rfl,
    ((form_field_visibility (sampleFormApp "expense")).2.1 rfl).1,
    ((form_field_visibility (sampleFormApp "transfer")).2.2 rfl).2.1⟩

/-- C9: `getCategoryText` returns the name of the income category when there is
one, else the name of the expense category when there is one, else the
fallback label; the income transaction with income category `Salary` yields
`Salary`, and a transaction with neither category yields the fallback. -/
theorem getCategoryText_cases {V : Type} (t : Transaction V) :
    (∀ c, t.income_category = some c → getCategoryText t = c.name) ∧
    (∀ c, t.income_category = none → t.expense_category = some c →
      getCategoryText t = c.name) ∧
    (t.income_category = none → t.expense_category = none →
      getCategoryText t = "Без категории") ∧
    getCategoryText sampleSalary = "Salary" ∧
    getCategoryText sampleTransfer = "Без категории" := by
  refine ⟨?_, ?_, ?_, rfl, rfl⟩
  · intro c h
    simp [getCategoryText, h]
  · intro c h1 h2
    simp [getCategoryText, h1, h2]
  · intro h1 h2
    simp [getCategoryText, h1, h2]

/-- C9 on a transaction that has both categories (the income category wins)
and on one that has only an expense category. -/
theorem getCategoryText_cases_witness :
    getCategoryText { sampleSalary with expense_category := some { id := 2, name := "Rent" } }
      = "Salary" ∧
    getCategoryText { sampleTransfer with expense_category := some { id := 2, name := "Rent" } }
      = "Rent" ∧
    getCategoryText sampleUndated = "Без категории" :=
  ⟨(getCategoryText_cases _).1 _ rfl, (getCategoryText_cases _).2.1 _ rfl rfl,
    (getCategoryText_cases sampleUndated).2.2.1 rfl rfl⟩

/-- C10: for every `transaction_type` value other than the strings `income`,
`expense` and `transfer`, `getTransactionRowClass` returns the empty string and
`getTransactionTypeText` returns its argument; for the three strings each
function returns its own fixed value, non-empty and different from the other
two. -/
theorem type_mappings_default (type : JsValue) :
    (type ≠ JsValue.string "income" → type ≠ JsValue.string "expense" →
      type ≠ JsValue.string "transfer" →
      getTransactionRowClass type = "" ∧ getTransactionTypeText type = type) ∧
    (getTransactionRowClass (JsValue.string "income") = "income-row" ∧
      getTransactionRowClass (JsValue.string "expense") = "expense-row" ∧
      getTransactionRowClass (JsValue.string "transfer") = "transfer-row") ∧
    (getTransactionTypeText (JsValue.string "income") = JsValue.string "Доход" ∧
      getTransactionTypeText (JsValue.string "expense") = JsValue.string "Расход" ∧
      getTransactionTypeText (JsValue.string "transfer") = JsValue.string "Перевод") ∧
    ("income-row" ≠ "" ∧ "expense-row" ≠ "" ∧ "transfer-row" ≠ "" ∧
      "income-row" ≠ "expense-row" ∧ "income-row" ≠ "transfer-row" ∧
      "expense-row" ≠ "transfer-row") ∧
    ("Доход" ≠ "" ∧ "Расход" ≠ "" ∧ "Перевод" ≠ "" ∧
      "Доход" ≠ "Расход" ∧ "Доход" ≠ "Перевод" ∧ "Расход" ≠ "Перевод") := by
  refine ⟨?_, ⟨rfl, rfl, rfl⟩, ⟨rfl, rfl, rfl⟩, by decide, by decide⟩
  intro h1 h2 h3
  have e1 : type.strictEqStr "income" = false := by
    rw [← Bool.not_eq_true, strictEqStr_eq_true]; exact h1
  have e2 : type.strictEqStr "expense" = false := by
    rw [← Bool.not_eq_true, strictEqStr_eq_true]; exact h2
  have e3 : type.strictEqStr "transfer" = false := by
    rw [← Bool.not_eq_true, strictEqStr_eq_true]; exact h3
  simp [getTransactionRowClass, getTransactionTypeText, e1, e2, e3]

/-- C10 at the string `refund` and at the value `null`. -/
theorem type_mappings_default_witness :
    (getTransactionRowClass (JsValue.string "refund") = "" ∧
      getTransactionTypeText (JsValue.string "refund") = JsValue.string "refund") ∧
    (getTransactionRowClass JsValue.null = "" ∧
      getTransactionTypeText JsValue.null = JsValue.null) :=
  ⟨(type_mappings_default (JsValue.string "refund")).1 (by simp) (by simp) (by simp),
    (type_mappings_default JsValue.null).1 (by simp) (by simp) (by simp)⟩

/-- C11: the total balance shown by `updateDashboardStats` is the formatted sum
of `current_balance` over all accounts; it is the same for every transaction
list and every current time; for the accounts with balances 1000 and 500 the
value that is formatted is 1500, and for an empty account list it is 0. -/
theorem total_balance_shown {V : Type} [Add V] [Zero V] (P : Platform V) (now : Int)
    (s : App V) :
    (updateDashboardStats P now s).dom.totalBalance =
      formatCurrency P (sumOfBalances P s.store.accounts 0) ∧
    (∀ (now' : Int) (transactions : List (Transaction V)),
      (updateDashboardStats P now'
        { s with store := { s.store with transactions := transactions } }).dom.totalBalance =
      (updateDashboardStats P now s).dom.totalBalance) ∧
    (updateDashboardStats P now
      { s with store := { s.store with accounts := [] } }).dom.totalBalance =
      formatCurrency P 0 ∧
    totalBalance P ([] : List (Account V)) = 0 ∧
    totalBalance samplePlatform sampleAccounts = 1500 ∧
    (updateDashboardStats samplePlatform sampleNow sampleAccountsApp).dom.totalBalance =
      formatCurrency samplePlatform 1500 := by
  refine ⟨?_, ?_, rfl, rfl, by decide, by decide⟩
  · simp only [updateDashboardStats, totalBalance, sumOfBalances_eq_foldl]
  · intro now' transactions
    rfl

/-- C12: in `updatePlannedTransactionsList` the row of a planned transaction
has the overdue treatment (the overdue row style and the overdue marker text)
if and only if its `planned_date` is strictly before the time at which the entry
is evaluated; otherwise, and so whenever the `planned_date` is equal to or after
that time, the row has the plain style and no marker. -/
theorem planned_overdue_treatment {V : Type} (P : Platform V) (clock : Nat → Int)
    (s : App V) (i : Nat) (planned : PlannedTransaction V)
    (h : s.store.plannedTransactions[i]? = some planned) :
    ∃ row, (updatePlannedTransactionsList P clock s).dom.plannedList[i]? = some row ∧
      (HasOverdueTreatment row ↔ ∃ d, planned.planned_date = some d ∧ d < clock i) ∧
      (row.className = "px-4 py-4 bg-red-50 border-l-4 border-red-400" ↔
        ∃ d, planned.planned_date = some d ∧ d < clock i) ∧
      (row.overdueMarker = some "Просрочено" ↔
        ∃ d, planned.planned_date = some d ∧ d < clock i) ∧
      ((¬ ∃ d, planned.planned_date = some d ∧ d < clock i) → HasPlainTreatment row) ∧
      (∀ d, planned.planned_date = some d → clock i ≤ d → HasPlainTreatment row) := by
  refine ⟨plannedRow P (clock i) planned, ?_, ?_⟩
  · rw [plannedList_getElem?, h]
    rfl
  · have hiff := isOverdue_iff (clock i) planned
    obtain ⟨hover, hplain⟩ := plannedRow_treatment P (clock i) planned
    by_cases hc : isOverdue (clock i) planned = true
    · have hcond := hiff.mp hc
      have ht := hover hc
      refine ⟨⟨fun _ => hcond, fun _ => ht⟩, ⟨fun _ => hcond, fun _ => ht.1⟩,
        ⟨fun _ => hcond, fun _ => ht.2⟩, fun hn => absurd hcond hn, ?_⟩
      intro d hd hle
      obtain ⟨d', hd', hlt⟩ := hcond
      rw [hd] at hd'
      cases hd'
      omega
    · have hncond : ¬ ∃ d, planned.planned_date = some d ∧ d < clock i :=
        fun hcond => hc (hiff.mpr hcond)
      have ht := hplain (by simpa using hc)
      refine ⟨⟨fun ho => ?_, fun hcond => absurd hcond hncond⟩,
        ⟨fun ho => ?_, fun hcond => absurd hcond hncond⟩,
        ⟨fun ho => ?_, fun hcond => absurd hcond hncond⟩, fun _ => ht, fun _ _ _ => ht⟩
      · exact absurd (ho.2.symm.trans ht.2) (by simp)
      · exact absurd (ho.symm.trans ht.1) (by decide)
      · exact absurd (ho.symm.trans ht.2) (by simp)

/-- C12 on the sample page, every entry evaluated at `sampleNow`: the entry
planned for 10 March has the overdue treatment; the entries planned for that
very instant and for a millisecond later, and the undated entry, have not. -/
theorem planned_overdue_treatment_witness :
    (∃ row, (updatePlannedTransactionsList samplePlatform (fun _ => sampleNow)
        samplePlannedApp).dom.plannedList[0]? = some row ∧ HasOverdueTreatment row) ∧
    (∃ row, (updatePlannedTransactionsList samplePlatform (fun _ => sampleNow)
        samplePlannedApp).dom.plannedList[1]? = some row ∧ HasPlainTreatment row) ∧
    (∃ row, (updatePlannedTransactionsList samplePlatform (fun _ => sampleNow)
        samplePlannedApp).dom.plannedList[2]? = some row ∧ HasPlainTreatment row) ∧
    (∃ row, (updatePlannedTransactionsList samplePlatform (fun _ => sampleNow)
        samplePlannedApp).dom.plannedList[3]? = some row ∧ HasPlainTreatment row) := by
  refine ⟨?_, ?_, ?_, ?_⟩
  · obtain ⟨row, hrow, hiff, _⟩ := planned_overdue_treatment samplePlatform
      (fun _ => sampleNow) samplePlannedApp 0 (samplePlanned 1 (some 1710028800000)) rfl
    exact ⟨row, hrow, hiff.mpr ⟨1710028800000, rfl, by decide⟩⟩
  · obtain ⟨row, hrow, _, _, _, _, hge⟩ := planned_overdue_treatment samplePlatform
      (fun _ => sampleNow) samplePlannedApp 1 (samplePlanned 2 (some 1710504000000)) rfl
    exact ⟨row, hrow, hge 1710504000000 rfl (by decide)⟩
  · obtain ⟨row, hrow, _, _, _, _, hge⟩ := planned_overdue_treatment samplePlatform
      (fun _ => sampleNow) samplePlannedApp 2 (samplePlanned 3 (some 1710504000001)) rfl
    exact ⟨row, hrow, hge 1710504000001 rfl (by decide)⟩
  · obtain ⟨row, hrow, _, _, _, hn, _⟩ := planned_overdue_treatment samplePlatform
      (fun _ => sampleNow) samplePlannedApp 3 (samplePlanned 4 none) rfl
    refine ⟨row, hrow, hn ?_⟩
    rintro ⟨d, hd, _⟩
    exact Option.noConfusion hd

end FinancialApp
